import Mathlib

/-!
Verification of the GoAttend face-recognition service core
(`src/face-service/main.py`) against its specification.

Modelling conventions, used throughout:

* Python floats are modelled as exact real numbers (`ℝ`).  `numpy` square
  roots become `Real.sqrt`, and Python's banker's rounding `round(x, d)`
  becomes exact round-half-to-even on reals.
* Images (`numpy` arrays obtained from RGB PIL images) are modelled as a
  pair of dimensions together with a pixel function; 2-D slicing follows
  Python's slice-normalisation semantics (negative indices wrap, bounds
  clamp).
* The external face detector is an oracle: endpoint models receive the
  list of detected faces (bounding box, detection confidence, optional
  pose angles, embedding) as an argument, exactly the data
  `insightface`'s `model.get` returns.  The "mock model" code path and
  the Redis backend (an external collaborator; the in-memory fallback
  `face_gallery` dict is the modelled store) are outside the model.
* Endpoints that can raise return `Except SvcError`; `HTTPException`
  becomes `SvcError.http`, and exceptions raised by libraries (for
  instance `numpy`'s `ValueError` on misaligned 1-D dot products)
  become `SvcError.pyValueError`.
-/

namespace GoAttend


/-! ### Python / numpy primitives -/

/-- Python slice-bound normalisation for a sequence of length `n`:
negative indices count from the end (clamped below at 0), nonnegative
indices are clamped above at `n`. -/
def pyBound (n : ℕ) (i : ℤ) : ℕ :=
  if i < 0 then (max 0 (n + i)).toNat else min i.toNat n

/-- Python `int()` applied to a float: truncation toward zero. -/
noncomputable def truncInt (x : ℝ) : ℤ :=
  if x < 0 then ⌈x⌉ else ⌊x⌋

open Classical in
/-- Round-half-to-even to an integer (the rounding of Python's `round`). -/
noncomputable def rhe (y : ℝ) : ℤ :=
  if y - ⌊y⌋ < 1/2 then ⌊y⌋
  else if 1/2 < y - ⌊y⌋ then ⌊y⌋ + 1
  else if Even ⌊y⌋ then ⌊y⌋ else ⌊y⌋ + 1

/-- Python `round(x, d)` on floats, idealised to exact reals. -/
noncomputable def pyRound (d : ℕ) (x : ℝ) : ℝ :=
  (rhe (x * 10 ^ d) : ℝ) / 10 ^ d

/-! ### The Similarity Engine (`cosine_similarity`, main.py lines 401-410) -/

/-- `np.dot` of two equal-length 1-D arrays (pointwise product, summed).
`List.zipWith` truncates to the shorter list; callers guard lengths. -/
def dotl (a b : List ℝ) : ℝ := (List.zipWith (· * ·) a b).sum

/-- Sum of squares of a vector; `np.linalg.norm a = Real.sqrt (sumSq a)`. -/
def sumSq (a : List ℝ) : ℝ := (a.map (fun x => x * x)).sum

open Classical in
/-- `cosine_similarity(emb1, emb2)` for equal-length embeddings:
`dot/(‖a‖·‖b‖)`, and `0.0` when either norm is zero. -/
noncomputable def cosine_similarity (a b : List ℝ) : ℝ :=
  let dot := dotl a b
  let norm_a := Real.sqrt (sumSq a)
  let norm_b := Real.sqrt (sumSq b)
  if norm_a = 0 ∨ norm_b = 0 then 0 else dot / (norm_a * norm_b)

/-- Service-level error taxonomy: `http s d` models a raised
`HTTPException(status_code=s, detail=d)`; `pyValueError` models an
exception raised inside a library call (uncaught by the service, it
surfaces as an internal server error, not as an `HTTPException`). -/
inductive SvcError where
  | http (status : ℕ) (detail : String)
  | pyValueError (msg : String)
deriving DecidableEq

/-- A `ValidationError` in the spec's taxonomy is an `HTTPException`
with status 400 surfaced to the caller. -/
def SvcError.isValidationError : SvcError → Prop
  | .http s _ => s = 400
  | .pyValueError _ => False

open Classical in
/-- `cosine_similarity` including `numpy` exception behaviour:
`np.dot` raises `ValueError` when the 1-D shapes differ (there is no
explicit length check in the Python source). -/
noncomputable def cosine_similarityE (a b : List ℝ) : Except SvcError ℝ :=
  if a.length ≠ b.length then
    .error (.pyValueError "shapes not aligned")
  else
    .ok (cosine_similarity a b)

/-! ### Images and grayscale matrices

An RGB image (`numpy` array of shape `h × w × 3`) is a pair of
dimensions with a pixel function; a grayscale matrix (shape `h × w`)
likewise.  Out-of-range pixel values are irrelevant: every operation
below only reads indices inside the stated dimensions (except the
reflected border reads of `laplace`, which stay in range by
construction). -/

structure RGB where
  r : ℝ
  g : ℝ
  b : ℝ

structure Img where
  h : ℕ
  w : ℕ
  px : ℕ → ℕ → RGB

structure GMat where
  h : ℕ
  w : ℕ
  v : ℕ → ℕ → ℝ

/-- Python 2-D slice `img[r1:r2, c1:c2]` with Python's normalisation of
negative / overlarge bounds. -/
def Img.slice (img : Img) (r1 r2 c1 c2 : ℤ) : Img :=
  let rs := pyBound img.h r1
  let re := pyBound img.h r2
  let cs := pyBound img.w c1
  let ce := pyBound img.w c2
  ⟨re - rs, ce - cs, fun i j => img.px (rs + i) (cs + j)⟩

/-- Python 2-D slice `m[r1:r2, c1:c2]` of a grayscale matrix. -/
def GMat.slice (m : GMat) (r1 r2 c1 c2 : ℤ) : GMat :=
  let rs := pyBound m.h r1
  let re := pyBound m.h r2
  let cs := pyBound m.w c1
  let ce := pyBound m.w c2
  ⟨re - rs, ce - cs, fun i j => m.v (rs + i) (cs + j)⟩

/-- `np.mean(face_region, axis=2)`: channel-mean grayscale conversion. -/
noncomputable def Img.grayMean (img : Img) : GMat :=
  ⟨img.h, img.w, fun i j => ((img.px i j).r + (img.px i j).g + (img.px i j).b) / 3⟩

noncomputable def GMat.sum (m : GMat) : ℝ :=
  ∑ i ∈ Finset.range m.h, ∑ j ∈ Finset.range m.w, m.v i j

/-- `np.mean` over all entries of a non-empty array (every direct use
below is on non-empty arrays or governed by a non-degeneracy
hypothesis; the one call site that can see an empty array — the
texture term of `check_liveness` — goes through `GMat.meanN`, whose
`none` models numpy's NaN on an empty array). -/
noncomputable def GMat.mean (m : GMat) : ℝ :=
  m.sum / (m.h * m.w)

/-- `ndarray.var()`: mean squared deviation from the mean (`ddof = 0`). -/
noncomputable def GMat.var (m : GMat) : ℝ :=
  GMat.mean ⟨m.h, m.w, fun i j => (m.v i j - m.mean) ^ 2⟩

/-! ### Blur (`calculate_blur`, main.py lines 285-312)

The deployed branch uses `scipy.ndimage.laplace` (discrete Laplacian,
correlation with kernel `[1, -2, 1]` along each axis, boundary mode
`reflect`); its variance, scaled by 500 and capped, gives the blur
level. -/

/-- Index reflection at the borders for a radius-1 kernel
(`scipy` mode 'reflect': `-1 ↦ 0`, `n ↦ n-1`). -/
def reflectIdx (n : ℕ) (i : ℤ) : ℕ :=
  if i < 0 then 0 else if (n : ℤ) ≤ i then n - 1 else i.toNat

/-- Read with reflected out-of-range indices. -/
def GMat.get (m : GMat) (i j : ℤ) : ℝ :=
  m.v (reflectIdx m.h i) (reflectIdx m.w j)

/-- `scipy.ndimage.laplace`: sum over both axes of the second
difference, borders reflected. -/
def laplace (g : GMat) : GMat :=
  ⟨g.h, g.w, fun i j =>
    (g.get ((i : ℤ) - 1) j - 2 * g.v i j + g.get ((i : ℤ) + 1) j)
    + (g.get i ((j : ℤ) - 1) - 2 * g.v i j + g.get i ((j : ℤ) + 1))⟩

open Classical in
/-- `calculate_blur(img_array, bbox)`: Laplacian-variance blur level in
`[0,1]` over the face crop (`bbox` coordinates truncated by `int()`);
`1.0` for an empty crop. -/
noncomputable def calculate_blur (img : Img) (bx1 by1 bx2 by2 : ℝ) : ℝ :=
  let x1 := truncInt bx1
  let y1 := truncInt by1
  let x2 := truncInt bx2
  let y2 := truncInt by2
  let face_region := img.slice y1 y2 x1 x2
  if face_region.h * face_region.w = 0 then 1.0
  else
    let gray := face_region.grayMean
    let variance := (laplace gray).var
    let blur_score := min (variance / 500) 1.0
    1.0 - blur_score

/-! ### Faces and quality assessment (`assess_face_quality`, lines 315-351) -/

/-- A detection result from the external detector: bounding box
`(x1, y1, x2, y2)`, detection confidence, optional pose angles
`(yaw, pitch, roll)` in degrees, and the embedding vector. -/
structure Face where
  bx1 : ℝ
  by1 : ℝ
  bx2 : ℝ
  by2 : ℝ
  det_score : ℝ
  pose : Option (ℝ × ℝ × ℝ)
  embedding : List ℝ

structure FaceQuality where
  score : ℝ
  blur : ℝ
  pose_yaw : ℝ
  pose_pitch : ℝ
  pose_roll : ℝ
  face_size : ℤ
  is_frontal : Prop

/-- `assess_face_quality(face, img_array)`. -/
noncomputable def assess_face_quality (face : Face) (img : Img) : FaceQuality :=
  let face_width := face.bx2 - face.bx1
  let face_height := face.by2 - face.by1
  let face_size := truncInt (face_width * face_height)
  let p := face.pose.getD (0, 0, 0)
  let pose_yaw := p.1
  let pose_pitch := p.2.1
  let pose_roll := p.2.2
  let blur := calculate_blur img face.bx1 face.by1 face.bx2 face.by2
  let is_frontal := |pose_yaw| < 30 ∧ |pose_pitch| < 25 ∧ |pose_roll| < 20
  let det_score := face.det_score
  let pose_penalty := (|pose_yaw| + |pose_pitch| + |pose_roll|) / 180
  let blur_penalty := blur
  let size_score := min ((face_size : ℝ) / (200 * 200)) 1.0
  let quality_score :=
    det_score * 0.3 + (1 - pose_penalty) * 0.25 + (1 - blur_penalty) * 0.25 + size_score * 0.2
  ⟨pyRound 3 quality_score, pyRound 3 blur,
   pyRound 1 pose_yaw, pyRound 1 pose_pitch, pyRound 1 pose_roll,
   face_size, is_frontal⟩

/-- The stable descending order on quality-scored faces used by
`scored_faces.sort(key=lambda x: x[1], reverse=True)`. -/
def faceRel : (Face × ℝ) → (Face × ℝ) → Prop := fun a b => b.2 ≤ a.2

noncomputable instance : DecidableRel faceRel :=
  fun _ _ => Classical.propDecidable _

open Classical in
/-- `get_best_face(faces, img_array)`: the single face, or the head of
the stable descending sort by quality score (Python's stable `sort` is
modelled by insertion sort, which is stable for `faceRel`). -/
noncomputable def get_best_face (faces : List Face) (img : Img) : Option Face :=
  if faces.length = 1 then faces.head?
  else
    (((faces.map (fun f => (f, (assess_face_quality f img).score))).insertionSort faceRel).head?).map Prod.fst

/-! ### Gallery store (the in-memory `face_gallery` dict, lines 413-457)

The durable (Redis) backend is an external collaborator; the modelled
store is the in-process fallback dict, which preserves insertion order
(Python 3.7+ dict semantics) and is iterated in that order by
search/identify.  Creation timestamps and opaque metadata are
request-independent passthrough fields and are not modelled. -/

structure Record where
  embedding : List ℝ
  name : Option String

abbrev Gallery := List (String × Record)

/-- `face_gallery[user_id] = data`: Python dict assignment — overwrites
in place when the key is present (keeping its position), appends
otherwise. -/
def save_to_gallery (g : Gallery) (uid : String) (rec : Record) : Gallery :=
  if (List.map Prod.fst g).contains uid then
    List.map (fun p => if p.1 = uid then (uid, rec) else p) g
  else g ++ [(uid, rec)]

/-- `face_gallery.get(user_id)`. -/
def load_from_gallery (g : Gallery) (uid : String) : Option Record :=
  List.lookup uid g

/-! ### Configuration (environment variables, lines 39-40) -/

structure Config where
  matchThreshold : ℝ
  qualityThreshold : ℝ

/-- `MATCH_THRESHOLD = 0.45`, `QUALITY_THRESHOLD = 0.3` (defaults). -/
noncomputable def defaultConfig : Config := ⟨0.45, 0.3⟩

/-! ### `get_embedding` (lines 370-398), real-model path -/

noncomputable def get_embedding (faces : List Face) (img : Img) (return_quality : Bool) :
    Except SvcError (List ℝ × ℝ × ℕ × Option FaceQuality) :=
  if faces.length = 0 then .error (.http 400 "No face detected in image")
  else
    match get_best_face faces img with
    | some face =>
        .ok (face.embedding, face.det_score, faces.length,
             if return_quality then some (assess_face_quality face img) else none)
    | none => .error (.http 400 "No face detected in image")
    -- the `none` arm is unreachable: `get_best_face_ne_none`

/-! ### Liveness heuristics (`check_liveness`, lines 460-544) -/

/-- The five sub-scores of the checks dict.  The texture sub-score is
`Option ℝ` because it is NaN (`none`) on 1-pixel-tall or -wide crops,
where `np.diff` along that axis is empty and `np.mean` of an empty
array is NaN; the other four are always finite. -/
structure LivenessChecks where
  screen_pattern : ℝ
  color_distribution : ℝ
  face_proportion : ℝ
  detection_confidence : ℝ
  texture_complexity : Option ℝ

/-- `(is_live, confidence, checks)`; `confidence = none` models a NaN
confidence (NaN propagates from the texture sub-score through the
weighted sum and `round`); `checks = none` models the degenerate
`{"error": "Invalid face region"}` dict. -/
structure LivenessResult where
  is_live : Bool
  confidence : Option ℝ
  checks : Option LivenessChecks

/-- `np.fft.fft2`: the 2-D discrete Fourier transform,
`X[k,l] = Σ_{m,n} x[m,n]·exp(-2πi(km/h + ln/w))`. -/
noncomputable def fft2 (g : GMat) (k l : ℕ) : ℂ :=
  ∑ m ∈ Finset.range g.h, ∑ n ∈ Finset.range g.w,
    (g.v m n : ℂ) *
      Complex.exp (-(2 * (Real.pi : ℂ) * Complex.I) *
        (((k * m : ℕ) : ℂ) / (g.h : ℂ) + ((l * n : ℕ) : ℂ) / (g.w : ℂ)))

/-- `np.abs(np.fft.fftshift(np.fft.fft2(gray)))`: the magnitude
spectrum with zero frequency rolled to the centre
(`fftshift`: `out[i] = in[(i - n//2) mod n]`). -/
noncomputable def magnitudeShift (g : GMat) : GMat :=
  ⟨g.h, g.w, fun r c =>
    Complex.abs (fft2 g ((r + g.h - g.h / 2) % g.h) ((c + g.w - g.w / 2) % g.w))⟩

/-- `np.mean` of a possibly empty array: `none` models the NaN numpy
produces on an empty array (it only emits a runtime warning). -/
noncomputable def GMat.meanN (m : GMat) : Option ℝ :=
  if m.h = 0 ∨ m.w = 0 then none else some m.mean

/-- IEEE addition of two possibly-NaN reals (`none` = NaN): NaN
propagates through `+`. -/
def addN : Option ℝ → Option ℝ → Option ℝ
  | some a, some b => some (a + b)
  | _, _ => none

open Classical in
/-- `bool(c > t)` as Python evaluates it on a float `c` that may be NaN
(`none`): any comparison with NaN is False. -/
noncomputable def gtN (c : Option ℝ) (t : ℝ) : Bool :=
  match c with
  | some v => decide (t < v)
  | none => false

/-- The weighted combination of the five check scores
(`weights = {screen:0.25, color:0.2, proportion:0.1, detection:0.25,
texture:0.2}`; every key is present in the checks dict, so the `0.5`
default of `checks.get(k, 0.5)` is never consulted).  A NaN texture
sub-score (`none`) makes the whole sum NaN. -/
noncomputable def liveness_combined (c : LivenessChecks) : Option ℝ :=
  c.texture_complexity.map (fun t =>
    c.screen_pattern * 0.25 + c.color_distribution * 0.2 + c.face_proportion * 0.1 +
      c.detection_confidence * 0.25 + t * 0.2)

open Classical in
/-- Check 3 of `check_liveness` (lines 509-515): the face-proportion
score from the raw integer box dimensions `x2-x1` and `y2-y1`,
`1.0 if 0.6 < w/(h + 1e-6) < 0.9 else 0.5`. -/
noncomputable def face_proportion_score (face_width face_height : ℤ) : ℝ :=
  let aspect_ratio := (face_width : ℝ) / ((face_height : ℝ) + 1e-6)
  if 0.6 < aspect_ratio ∧ aspect_ratio < 0.9 then 1.0 else 0.5

/-- The clamped face crop of `check_liveness`:
`img_array[max(0,y1):min(h,y2), max(0,x1):min(w,x2)]` with the
`astype(int)` box. -/
noncomputable def liveness_region (face : Face) (img : Img) : Img :=
  img.slice (max 0 (truncInt face.by1)) (min (img.h : ℤ) (truncInt face.by2))
    (max 0 (truncInt face.bx1)) (min (img.w : ℤ) (truncInt face.bx2))

open Classical in
/-- `check_liveness(face, img_array)`. -/
noncomputable def check_liveness (face : Face) (img : Img) : LivenessResult :=
  let x1 := truncInt face.bx1
  let y1 := truncInt face.by1
  let x2 := truncInt face.bx2
  let y2 := truncInt face.by2
  let face_region := liveness_region face img
  if face_region.h * face_region.w = 0 then
    ⟨false, some 0.0, none⟩
  else
    let gray := face_region.grayMean
    let magnitude := magnitudeShift gray
    let ch : ℤ := magnitude.h / 2
    let cw : ℤ := magnitude.w / 2
    let low_freq := (magnitude.slice (ch - 10) (ch + 10) (cw - 10) (cw + 10)).mean
    let high_freq := magnitude.mean - low_freq
    let freq_ratio := high_freq / (low_freq + 1e-6)
    let screen_score := 1.0 - min (freq_ratio / 2) 1.0
    let rMat : GMat := ⟨face_region.h, face_region.w, fun i j => (face_region.px i j).r⟩
    let gMat : GMat := ⟨face_region.h, face_region.w, fun i j => (face_region.px i j).g⟩
    let bMat : GMat := ⟨face_region.h, face_region.w, fun i j => (face_region.px i j).b⟩
    let color_natural := if gMat.mean < rMat.mean ∧ bMat.mean < gMat.mean then 1.0 else 0.6
    let color_variance :=
      min ((Real.sqrt rMat.var + Real.sqrt gMat.var + Real.sqrt bMat.var) / 150) 1.0
    let color_score := color_natural * 0.5 + color_variance * 0.5
    let face_width := x2 - x1
    let face_height := y2 - y1
    let proportion_score := face_proportion_score face_width face_height
    -- `np.mean(np.abs(np.diff(gray, axis)))`: the diff array along an axis
    -- of extent 1 is empty and its mean is NaN (`GMat.meanN = none`); NaN
    -- then propagates through `+`, `/ 25`, Python's `min(x, 1.0)` (which
    -- keeps its first argument when `1.0 < x` is False, as it is for NaN),
    -- `round(·, 3)` and the weighted sum, and `bool(NaN > 0.55)` is False.
    let texture_grad :=
      addN
        (GMat.meanN ⟨face_region.h - 1, face_region.w,
          fun i j => |gray.v (i + 1) j - gray.v i j|⟩)
        (GMat.meanN ⟨face_region.h, face_region.w - 1,
          fun i j => |gray.v i (j + 1) - gray.v i j|⟩)
    let texture_score := texture_grad.map (fun g => min (g / 25) 1.0)
    let checks : LivenessChecks :=
      ⟨pyRound 3 screen_score, pyRound 3 color_score, pyRound 3 proportion_score,
       pyRound 3 face.det_score, texture_score.map (pyRound 3)⟩
    let confidence := liveness_combined checks
    ⟨gtN confidence 0.55, confidence.map (pyRound 3), some checks⟩

/-! ### Search / identify ranking core (lines 693-708 and 773-788) -/

structure SearchMatch where
  user_id : String
  similarity : ℝ
  name : Option String

open Classical in
/-- The per-gallery-entry loop of `search`/`identify`: keep entries at
or above the threshold, carrying the rounded similarity. -/
noncomputable def compute_matches (probe : List ℝ) (g : Gallery) (threshold : ℝ) :
    List SearchMatch :=
  List.filterMap (fun p =>
    if threshold ≤ cosine_similarity probe p.2.embedding then
      some ⟨p.1, pyRound 4 (cosine_similarity probe p.2.embedding), p.2.name⟩
    else none) g

/-- Stable descending order on position-tagged matches: Python's stable
`matches.sort(key=lambda x: x.similarity, reverse=True)` is modelled as
sorting by (similarity descending, original position ascending). -/
def matchRel : (ℕ × SearchMatch) → (ℕ × SearchMatch) → Prop :=
  fun p q => q.2.similarity < p.2.similarity ∨
    (p.2.similarity = q.2.similarity ∧ p.1 ≤ q.1)

noncomputable instance : DecidableRel matchRel :=
  fun _ _ => Classical.propDecidable _

instance : IsTotal (ℕ × SearchMatch) matchRel where
  total p q := by
    unfold matchRel
    rcases lt_trichotomy p.2.similarity q.2.similarity with h | h | h
    · exact Or.inr (Or.inl h)
    · rcases Nat.le_total p.1 q.1 with h' | h'
      · exact Or.inl (Or.inr ⟨h, h'⟩)
      · exact Or.inr (Or.inr ⟨h.symm, h'⟩)
    · exact Or.inl (Or.inl h)

instance : IsTrans (ℕ × SearchMatch) matchRel where
  trans p q r hpq hqr := by
    unfold matchRel at hpq hqr ⊢
    rcases hpq with h1 | ⟨h1, h1'⟩ <;> rcases hqr with h2 | ⟨h2, h2'⟩
    · exact Or.inl (lt_trans h2 h1)
    · exact Or.inl (h2 ▸ h1)
    · exact Or.inl (h1 ▸ h2)
    · exact Or.inr ⟨h1.trans h2, h1'.trans h2'⟩

open Classical in
/-- `matches.sort(...); matches[:top_k]` (position tags stripped after
sorting). -/
noncomputable def sort_truncate (ms : List SearchMatch) (topk : ℕ) : List SearchMatch :=
  (List.map Prod.snd (List.insertionSort matchRel ms.enum)).take topk

/-! ### Endpoint models (real-model, in-memory-store path) -/

def errDetail : SvcError → String
  | .http _ d => d
  | .pyValueError m => m

structure EmbedResponse where
  embedding : List ℝ
  score : ℝ
  faces_detected : ℕ
  quality : Option FaceQuality

/-- `POST /embed` (lines 571-586). -/
noncomputable def embedE (faces : List Face) (img : Img) : Except SvcError EmbedResponse :=
  match get_embedding faces img true with
  | .error e => .error e
  | .ok r => .ok ⟨r.1, r.2.1, r.2.2.1, r.2.2.2⟩

structure CompareResponse where
  similarity : ℝ
  isMatch : Bool
  threshold : ℝ
  quality_1 : Option FaceQuality
  quality_2 : Option FaceQuality

open Classical in
/-- `POST /compare` (lines 589-610). -/
noncomputable def compareE (cfg : Config) (faces1 : List Face) (img1 : Img)
    (faces2 : List Face) (img2 : Img) : Except SvcError CompareResponse :=
  match get_embedding faces1 img1 true with
  | .error e => .error e
  | .ok r1 =>
      match get_embedding faces2 img2 true with
      | .error e => .error e
      | .ok r2 =>
          let similarity := cosine_similarity r1.1 r2.1
          .ok ⟨pyRound 4 similarity, decide (cfg.matchThreshold ≤ similarity),
               cfg.matchThreshold, r1.2.2.2, r2.2.2.2⟩

structure EnrollResponse where
  user_id : String
  success : Bool
  quality : Option FaceQuality
  message : String

open Classical in
/-- `POST /enroll` (lines 613-650).  The `HTTPException` raised by
`get_embedding` (no face detected) is caught and converted into an
unsuccessful `EnrollResponse`; a low quality score is likewise a
declined (not erroneous) response.  Returns the updated gallery
together with the response.  (The quality-rejection message is an
f-string with interpolated numbers; only its fixed prefix is kept.) -/
noncomputable def enrollE (cfg : Config) (uid : String) (name : Option String)
    (faces : List Face) (img : Img) (g : Gallery) : Gallery × EnrollResponse :=
  match get_embedding faces img true with
  | .error e => (g, ⟨uid, false, none, errDetail e⟩)
  | .ok r =>
      match r.2.2.2 with
      | some q =>
          if q.score < cfg.qualityThreshold then
            (g, ⟨uid, false, some q, "Face quality too low"⟩)
          else
            (save_to_gallery g uid ⟨r.1, name⟩,
             ⟨uid, true, some q, "Face enrolled successfully"⟩)
      | none =>
          (save_to_gallery g uid ⟨r.1, name⟩,
           ⟨uid, true, none, "Face enrolled successfully"⟩)

structure SearchResponse where
  «matches» : List SearchMatch
  faces_detected : ℕ
  quality : Option FaceQuality

noncomputable def searchE (cfg : Config) (faces : List Face) (img : Img)
    (thresholdOpt : Option ℝ) (topk : ℕ) (g : Gallery) : Except SvcError SearchResponse :=
  match get_embedding faces img true with
  | .error e => .error e
  | .ok r =>
      let threshold := thresholdOpt.getD cfg.matchThreshold
      if List.isEmpty g then .ok ⟨[], r.2.2.1, r.2.2.2⟩
      else .ok ⟨sort_truncate (compute_matches r.1 g threshold) topk, r.2.2.1, r.2.2.2⟩

structure IdentifyResponse where
  identified : Bool
  «matches» : List SearchMatch
  best_match : Option SearchMatch
  quality : Option FaceQuality
  liveness : Option LivenessResult

open Classical in
/-- `POST /identify` (lines 717-800). -/
noncomputable def identifyE (cfg : Config) (faces : List Face) (img : Img)
    (topk : ℕ) (g : Gallery) : Except SvcError IdentifyResponse :=
  if faces.length = 0 then .error (.http 400 "No face detected in image")
  else
    match get_best_face faces img with
    | none => .error (.http 400 "No face detected in image")  -- unreachable
    | some face =>
        let quality := assess_face_quality face img
        let liveness_result := check_liveness face img
        if List.isEmpty g then
          .ok ⟨false, [], none, some quality, some liveness_result⟩
        else
          let ms := sort_truncate
            (compute_matches face.embedding g (cfg.matchThreshold * 0.8)) topk
          let best_match := match ms with
            | [] => none
            | m :: _ => if cfg.matchThreshold ≤ m.similarity then some m else none
          .ok ⟨best_match.isSome, ms, best_match, some quality, some liveness_result⟩

structure VerifyResponse where
  user_id : String
  verified : Bool
  similarity : ℝ
  threshold : ℝ
  quality : Option FaceQuality

open Classical in
/-- `POST /verify` (lines 803-826). -/
noncomputable def verifyE (cfg : Config) (uid : String) (faces : List Face) (img : Img)
    (g : Gallery) : Except SvcError VerifyResponse :=
  match load_from_gallery g uid with
  | none => .error (.http 404 "User not enrolled")
  | some stored =>
      match get_embedding faces img true with
      | .error e => .error e
      | .ok r =>
          let similarity := cosine_similarity r.1 stored.embedding
          .ok ⟨uid, decide (cfg.matchThreshold ≤ similarity), pyRound 4 similarity,
               cfg.matchThreshold, r.2.2.2⟩

structure LivenessResponse where
  is_live : Bool
  confidence : Option ℝ
  checks : Option LivenessChecks

/-- `POST /liveness` (lines 829-862). -/
noncomputable def livenessE (faces : List Face) (img : Img) :
    Except SvcError LivenessResponse :=
  if faces.length = 0 then .error (.http 400 "No face detected")
  else
    match get_best_face faces img with
    | none => .error (.http 400 "No face detected")  -- unreachable
    | some face =>
        let r := check_liveness face img
        .ok ⟨r.is_live, r.confidence, r.checks⟩

structure BatchEmbedResult where
  success : Bool
  embedding : Option (List ℝ)
  score : Option ℝ
  error : Option String

/-- `POST /batch/embed` (lines 865-891): each item processed
independently, failures captured per item (`except Exception` also
catches the no-face `HTTPException`).  An item is the detector output
and image for one URL. -/
noncomputable def batch_embed (items : List (List Face × Img)) : List BatchEmbedResult :=
  items.map (fun it =>
    match get_embedding it.1 it.2 false with
    | .ok r => ⟨true, some r.1, some r.2.1, none⟩
    | .error e => ⟨false, none, none, some (errDetail e)⟩)

/-- The empty (0×0) image. -/
def imgEmpty : Img := ⟨0, 0, fun _ _ => ⟨0, 0, 0⟩⟩

/-- A detection with zero confidence, degenerate bounding box and
maximal pose deviation on every axis. -/
noncomputable def exFaceC1 : Face := ⟨0, 0, 0, 0, 0, some (180, 180, 180), [1]⟩

/-- A frontal face with full detection confidence, a degenerate box,
and embedding `[3, 4]`; its quality score is 0.55, above the default
quality threshold. -/
def faceW : Face := ⟨0, 0, 0, 0, 1, some (0, 0, 0), [3, 4]⟩

/-- The spec's worked example: probe and three gallery embeddings whose
similarities to the probe are exactly 0.9, 0.6 and 0.3. -/
def probeEx : List ℝ := [1, 0, 0, 0]

def embA : List ℝ := [9, 3, 3, 1]

def embB : List ℝ := [6, 8, 0, 0]

def embC : List ℝ := [3, 9, 3, 1]

def galEx : Gallery := [("a", ⟨embA, none⟩), ("b", ⟨embB, none⟩), ("c", ⟨embC, none⟩)]

/-! ## Claim C8 — identify's confirmed-identity decision -/

/-- A probe face carrying the example probe embedding. -/
def faceP : Face := ⟨0, 0, 0, 0, 1, some (0, 0, 0), probeEx⟩

/-- The identify response for `faceP` against the example gallery. -/
noncomputable def respEx : IdentifyResponse :=
  ⟨true, [⟨"a", 0.9, none⟩, ⟨"b", 0.6, none⟩], some ⟨"a", 0.9, none⟩,
   some (assess_face_quality faceP imgEmpty),
   some (check_liveness faceP imgEmpty)⟩

/-- A 1×1 image and a unit box covering it. -/
def img1x1 : Img := ⟨1, 1, fun _ _ => ⟨7, 5, 3⟩⟩

/-! ### The C5 counterexample image

A 36-row, 22-column crop whose rows alternate between bright and dark
with period 2: row `m` has channel values
`(205, 204, 203) + 50·(-1)^m`.  Its spectrum has only the DC component
and the row-Nyquist component; the DC magnitude dominates the
low-frequency window, so the screen-pattern score exceeds 1, while the
strong alternation drives texture and colour variance to full credit. -/

def sgn (m : ℕ) : ℝ := if m % 2 = 0 then 1 else -1

def imgC5 : Img :=
  ⟨36, 22, fun m _ => ⟨205 + 50 * sgn m, 204 + 50 * sgn m, 203 + 50 * sgn m⟩⟩

def faceC5 : Face := ⟨0, 0, 22, 36, 1, none, [1]⟩

/-- The grayscale (channel mean) of the counterexample crop. -/
noncomputable def GC5 : GMat := ⟨36, 22, fun m _ => 204 + 50 * sgn m⟩

/-! Root-of-unity sums for evaluating the DFT. -/

noncomputable def rootSum (N : ℕ) (j : ℤ) : ℂ :=
  ∑ m ∈ Finset.range N, Complex.exp (-(2 * (Real.pi : ℂ) * Complex.I) * j * m / N)

/-! Basic facts about `rhe` and `pyRound`. -/

theorem rhe_intCast (k : ℤ) : rhe (k : ℝ) = k := by
  unfold rhe
  norm_num

theorem rhe_ge_floor (y : ℝ) : ⌊y⌋ ≤ rhe y := by
  unfold rhe
  split_ifs <;> omega

theorem rhe_le_floor_add_one (y : ℝ) : rhe y ≤ ⌊y⌋ + 1 := by
  unfold rhe
  split_ifs <;> omega

theorem rhe_mono {y z : ℝ} (h : y ≤ z) : rhe y ≤ rhe z := by
  rcases lt_or_le (⌊y⌋) (⌊z⌋) with hf | hf
  · calc rhe y ≤ ⌊y⌋ + 1 := rhe_le_floor_add_one y
    _ ≤ ⌊z⌋ := by omega
    _ ≤ rhe z := rhe_ge_floor z
  · have hfe : ⌊y⌋ = ⌊z⌋ := le_antisymm (Int.floor_le_floor h) hf
    rcases lt_trichotomy (y - ⌊y⌋) (1/2) with h1 | h1 | h1
    · rw [show rhe y = ⌊y⌋ from by unfold rhe; rw [if_pos h1], hfe]
      exact rhe_ge_floor z
    · have h2 : 1/2 ≤ z - ⌊z⌋ := by rw [← hfe]; linarith
      rcases eq_or_lt_of_le h2 with h2 | h2
      · have hyz : y = z := by
          have hy' : y = (⌊y⌋ : ℝ) + 1/2 := by linarith
          have hz' : z = (⌊z⌋ : ℝ) + 1/2 := by linarith
          rw [hy', hz', hfe]
        rw [hyz]
      · have hz' : rhe z = ⌊z⌋ + 1 := by
          unfold rhe; rw [if_neg (by linarith), if_pos h2]
        rw [hz', ← hfe]
        exact rhe_le_floor_add_one y
    · have h2 : 1/2 < z - ⌊z⌋ := by rw [← hfe]; linarith
      have hy' : rhe y = ⌊y⌋ + 1 := by
        unfold rhe; rw [if_neg (by linarith), if_pos h1]
      have hz' : rhe z = ⌊z⌋ + 1 := by
        unfold rhe; rw [if_neg (by linarith), if_pos h2]
      rw [hy', hz', hfe]

theorem rhe_nonneg {y : ℝ} (h : 0 ≤ y) : 0 ≤ rhe y := by
  have : (0 : ℤ) ≤ ⌊y⌋ := by positivity
  exact le_trans this (rhe_ge_floor y)

theorem pyRound_nonneg (d : ℕ) {x : ℝ} (h : 0 ≤ x) : 0 ≤ pyRound d x := by
  unfold pyRound
  have h1 : (0:ℝ) ≤ (rhe (x * 10 ^ d) : ℝ) := by
    exact_mod_cast rhe_nonneg (by positivity)
  positivity

theorem pyRound_mono (d : ℕ) {x y : ℝ} (h : x ≤ y) : pyRound d x ≤ pyRound d y := by
  unfold pyRound
  have h1 : rhe (x * 10 ^ d) ≤ rhe (y * 10 ^ d) := by
    apply rhe_mono
    have : (0:ℝ) < 10 ^ d := by positivity
    nlinarith
  have h2 : ((rhe (x * 10 ^ d)) : ℝ) ≤ ((rhe (y * 10 ^ d)) : ℝ) := by exact_mod_cast h1
  gcongr

/-- `pyRound` is the identity on reals that are exact multiples of `10^(-d)`. -/
theorem pyRound_eq_self (d : ℕ) (x : ℝ) (k : ℤ) (hk : x * 10 ^ d = (k : ℝ)) :
    pyRound d x = x := by
  unfold pyRound
  rw [hk, rhe_intCast, ← hk]
  field_simp

theorem dotl_comm (a b : List ℝ) : dotl a b = dotl b a := by
  unfold dotl
  rw [List.zipWith_comm_of_comm]
  exact fun x y => mul_comm x y

theorem sumSq_cons (x : ℝ) (xs : List ℝ) : sumSq (x :: xs) = x * x + sumSq xs := by
  unfold sumSq
  simp

theorem sumSq_nonneg (a : List ℝ) : 0 ≤ sumSq a := by
  induction a with
  | nil => simp [sumSq]
  | cons x xs ih =>
      rw [sumSq_cons]
      nlinarith [mul_self_nonneg x]

theorem sumSq_pos_of_mem {a : List ℝ} {y : ℝ} (hy : y ∈ a) (hne : y ≠ 0) :
    0 < sumSq a := by
  induction a with
  | nil => simp at hy
  | cons x xs ih =>
      rw [sumSq_cons]
      rcases List.mem_cons.mp hy with h | h
      · have h1 : 0 < y * y := mul_self_pos.mpr hne
        have h2 := sumSq_nonneg xs
        subst h
        linarith
      · have h1 := ih h
        have h2 := mul_self_nonneg x
        linarith

theorem dotl_self (a : List ℝ) : dotl a a = sumSq a := by
  unfold dotl sumSq
  congr 1
  rw [List.zipWith_same]

theorem GMat.sum_nonneg (m : GMat) (h : ∀ i j, i < m.h → j < m.w → 0 ≤ m.v i j) :
    0 ≤ m.sum := by
  unfold GMat.sum
  apply Finset.sum_nonneg
  intro i hi
  apply Finset.sum_nonneg
  intro j hj
  exact h i j (Finset.mem_range.mp hi) (Finset.mem_range.mp hj)

theorem GMat.mean_nonneg (m : GMat) (h : ∀ i j, i < m.h → j < m.w → 0 ≤ m.v i j) :
    0 ≤ m.mean := by
  unfold GMat.mean
  have := GMat.sum_nonneg m h
  positivity

theorem GMat.var_nonneg (m : GMat) : 0 ≤ m.var := by
  unfold GMat.var
  apply GMat.mean_nonneg
  intro i j _ _
  positivity

theorem calculate_blur_mem_Icc (img : Img) (bx1 by1 bx2 by2 : ℝ) :
    calculate_blur img bx1 by1 bx2 by2 ∈ Set.Icc (0:ℝ) 1 := by
  simp only [calculate_blur]
  split
  · constructor <;> norm_num
  · have hv := GMat.var_nonneg (laplace (Img.grayMean (Img.slice img (truncInt by1) (truncInt by2) (truncInt bx1) (truncInt bx2))))
    constructor
    · have : min ((laplace (Img.grayMean (Img.slice img (truncInt by1) (truncInt by2) (truncInt bx1) (truncInt bx2)))).var / 500) 1.0 ≤ 1.0 :=
        min_le_right _ _
      linarith
    · have : (0:ℝ) ≤ min ((laplace (Img.grayMean (Img.slice img (truncInt by1) (truncInt by2) (truncInt bx1) (truncInt bx2)))).var / 500) 1.0 := by
        apply le_min
        · positivity
        · norm_num
      linarith

theorem get_best_face_ne_none {faces : List Face} (img : Img) (h : faces ≠ []) :
    ∃ f, get_best_face faces img = some f := by
  unfold get_best_face
  split
  · rename_i h1
    match faces with
    | [] => exact absurd rfl h
    | [f] => exact ⟨f, rfl⟩
    | a :: b :: t => simp at h1
  · have hperm := List.perm_insertionSort faceRel
      (faces.map (fun f => (f, (assess_face_quality f img).score)))
    have hlen : (List.insertionSort faceRel
        (faces.map (fun f => (f, (assess_face_quality f img).score)))).length = faces.length := by
      rw [hperm.length_eq, List.length_map]
    cases hs : List.insertionSort faceRel
        (faces.map (fun f => (f, (assess_face_quality f img).score))) with
    | nil =>
        rw [hs] at hlen
        simp only [List.length_nil] at hlen
        exact absurd (List.length_eq_zero.mp hlen.symm) h
    | cons p ps =>
        exact ⟨p.1, rfl⟩

/-! ## Claim C3 — cosine similarity -/

/-- A vector with some non-zero coordinate has self-similarity exactly 1. -/
theorem cosine_similarity_self {x : List ℝ} (hx : ∃ y ∈ x, y ≠ 0) :
    cosine_similarity x x = 1 := by
  obtain ⟨y, hy, hyne⟩ := hx
  have hpos : 0 < sumSq x := sumSq_pos_of_mem hy hyne
  have hs : Real.sqrt (sumSq x) ≠ 0 := by
    intro hcon
    have := Real.sqrt_eq_zero (le_of_lt hpos) |>.mp hcon
    linarith
  unfold cosine_similarity
  rw [if_neg (by tauto), dotl_self,
      Real.mul_self_sqrt (le_of_lt hpos), div_self (ne_of_gt hpos)]

/-- C3: for equal-length vectors, `cosine_similarity` returns exactly 0
when either vector's norm is zero (never dividing by zero), and
`dot(a,b)/(‖a‖·‖b‖)` otherwise; consequently it is symmetric, and every
non-zero vector has similarity 1 with itself. -/
theorem C3_cosine_similarity_spec (a b : List ℝ) (h : a.length = b.length) :
    ((Real.sqrt (sumSq a) = 0 ∨ Real.sqrt (sumSq b) = 0) →
      cosine_similarity a b = 0) ∧
    (¬(Real.sqrt (sumSq a) = 0 ∨ Real.sqrt (sumSq b) = 0) →
      cosine_similarity a b = dotl a b / (Real.sqrt (sumSq a) * Real.sqrt (sumSq b))) ∧
    cosine_similarity a b = cosine_similarity b a ∧
    (∀ x : List ℝ, (∃ y ∈ x, y ≠ 0) → cosine_similarity x x = 1) := by
  refine ⟨?_, ?_, ?_, ?_⟩
  · intro hz
    unfold cosine_similarity
    rw [if_pos hz]
  · intro hz
    unfold cosine_similarity
    rw [if_neg hz]
  · unfold cosine_similarity
    simp only
    rw [dotl_comm]
    by_cases hc : Real.sqrt (sumSq a) = 0 ∨ Real.sqrt (sumSq b) = 0
    · rw [if_pos hc, if_pos (Or.symm hc)]
    · rw [if_neg hc, if_neg (fun hcon => hc (Or.symm hcon)), mul_comm]
  · intro x hx
    exact cosine_similarity_self hx

/-- Witness for C3 at concrete inputs. -/
theorem C3_witness :
    cosine_similarity [(3:ℝ), 4] [(3:ℝ), 4] = 1 ∧
    cosine_similarity [(3:ℝ), 4] [(0:ℝ), 1] = cosine_similarity [(0:ℝ), 1] [(3:ℝ), 4] := by
  have h := C3_cosine_similarity_spec [(3:ℝ), 4] [(0:ℝ), 1] (by simp)
  exact ⟨h.2.2.2 [(3:ℝ), 4] ⟨3, by simp, by norm_num⟩, h.2.2.1⟩

/-! ## Claim C7 — mismatched embedding lengths -/

/-- C7 counterexample: comparing embeddings of lengths 1 and 2 fails
with numpy's uncaught `ValueError` (no explicit length check exists in
the source), which is not a ValidationError of the service taxonomy. -/
theorem C7_counterexample :
    cosine_similarityE [(1:ℝ)] [(1:ℝ), 2] = .error (.pyValueError "shapes not aligned") ∧
    ¬ SvcError.isValidationError (.pyValueError "shapes not aligned") := by
  constructor
  · unfold cosine_similarityE
    norm_num
  · simp [SvcError.isValidationError]

/-- C7 amended: comparing embeddings of different lengths always fails,
but the failure is numpy's `ValueError` escaping uncaught (surfacing as
an internal server error), never a ValidationError. -/
theorem C7_mismatched_length_fails (a b : List ℝ) (h : a.length ≠ b.length) :
    cosine_similarityE a b = .error (.pyValueError "shapes not aligned") ∧
    ∀ e, cosine_similarityE a b = .error e → ¬ e.isValidationError := by
  have heq : cosine_similarityE a b = .error (.pyValueError "shapes not aligned") := by
    unfold cosine_similarityE
    rw [if_pos h]
  refine ⟨heq, ?_⟩
  intro e he
  rw [heq] at he
  injection he with he'
  rw [← he']
  simp [SvcError.isValidationError]

/-- Witness for the amended C7 at a concrete input. -/
theorem C7_witness :
    cosine_similarityE [(2:ℝ)] [(2:ℝ), 3] = .error (.pyValueError "shapes not aligned") :=
  (C7_mismatched_length_fails [(2:ℝ)] [(2:ℝ), 3] (by simp)).1

/-! ## Claim C1 — composite quality score -/

theorem truncInt_nonneg {x : ℝ} (h : 0 ≤ x) : 0 ≤ truncInt x := by
  unfold truncInt
  rw [if_neg (not_lt.mpr h)]
  exact Int.floor_nonneg.mpr h

theorem truncInt_zero : truncInt 0 = 0 := by
  unfold truncInt
  norm_num

theorem blur_of_empty_crop : calculate_blur imgEmpty 0 0 0 0 = 1 := by
  unfold calculate_blur
  norm_num [Img.slice, pyBound, truncInt_zero, imgEmpty]

/-- C1 counterexample: with zero detection confidence, an empty box and
pose angles (180°, 180°, 180°), the unclamped pose penalty is 3 and the
composite quality score is −0.5, outside [0,1] — so the sub-terms are
not all clamped before weighting, and the score does go below 0 for
extreme pose angles. -/
theorem C1_counterexample :
    (assess_face_quality exFaceC1 imgEmpty).score = -(1/2) ∧
    ¬ (0:ℝ) ≤ (assess_face_quality exFaceC1 imgEmpty).score := by
  have hscore : (assess_face_quality exFaceC1 imgEmpty).score = pyRound 3 (-(1/2)) := by
    unfold assess_face_quality exFaceC1
    simp only [blur_of_empty_crop]
    congr 1
    rw [show ((0:ℝ) - 0) * (0 - 0) = 0 by norm_num, truncInt_zero]
    norm_num
  have hval : pyRound 3 (-(1/2) : ℝ) = -(1/2) := by
    apply pyRound_eq_self 3 _ (-500)
    norm_num
  rw [hscore, hval]
  norm_num

/-- C1 amended: the composite score is the stated weighted sum
`0.30·det + 0.25·(1−pose_penalty) + 0.25·(1−blur) + 0.20·size_score`
(then rounded to 3 decimals), where blur and size are clamped to [0,1]
by construction but the pose penalty and detection confidence are NOT
clamped; the score lies in [0,1] whenever the detection confidence is
in [0,1] and the absolute pose angles sum to at most 180°.  (The
counterexample above shows it goes below 0 beyond that.) -/
theorem C1_quality_formula_and_bounds (face : Face) (img : Img)
    (hdet : face.det_score ∈ Set.Icc (0:ℝ) 1)
    (hpose : |(face.pose.getD (0,0,0)).1| + |(face.pose.getD (0,0,0)).2.1|
      + |(face.pose.getD (0,0,0)).2.2| ≤ 180)
    (hbox : face.bx1 < face.bx2 ∧ face.by1 < face.by2) :
    (assess_face_quality face img).score =
      pyRound 3 (face.det_score * 0.3
        + (1 - (|(face.pose.getD (0,0,0)).1| + |(face.pose.getD (0,0,0)).2.1|
            + |(face.pose.getD (0,0,0)).2.2|) / 180) * 0.25
        + (1 - calculate_blur img face.bx1 face.by1 face.bx2 face.by2) * 0.25
        + min ((truncInt ((face.bx2 - face.bx1) * (face.by2 - face.by1)) : ℝ) / (200 * 200)) 1.0
            * 0.2) ∧
    (assess_face_quality face img).score ∈ Set.Icc (0:ℝ) 1 := by
  have hform : (assess_face_quality face img).score =
      pyRound 3 (face.det_score * 0.3
        + (1 - (|(face.pose.getD (0,0,0)).1| + |(face.pose.getD (0,0,0)).2.1|
            + |(face.pose.getD (0,0,0)).2.2|) / 180) * 0.25
        + (1 - calculate_blur img face.bx1 face.by1 face.bx2 face.by2) * 0.25
        + min ((truncInt ((face.bx2 - face.bx1) * (face.by2 - face.by1)) : ℝ) / (200 * 200)) 1.0
            * 0.2) := by
    unfold assess_face_quality
    simp only
  refine ⟨hform, ?_⟩
  rw [hform]
  set pp := (|(face.pose.getD (0,0,0)).1| + |(face.pose.getD (0,0,0)).2.1|
      + |(face.pose.getD (0,0,0)).2.2|) / 180 with hpp
  have hpp0 : 0 ≤ pp := by
    rw [hpp]
    positivity
  have hpp1 : pp ≤ 1 := by
    rw [hpp]
    linarith [hpose]
  have hblur := calculate_blur_mem_Icc img face.bx1 face.by1 face.bx2 face.by2
  rw [Set.mem_Icc] at hblur hdet
  have hsz0 : (0:ℝ) ≤ min ((truncInt ((face.bx2 - face.bx1) * (face.by2 - face.by1)) : ℝ) / (200 * 200)) 1.0 := by
    apply le_min
    · have h1 : (0:ℝ) ≤ ((face.bx2 - face.bx1) * (face.by2 - face.by1)) := by
        nlinarith [hbox.1, hbox.2]
      have h2 := truncInt_nonneg h1
      have h3 : (0:ℝ) ≤ (truncInt ((face.bx2 - face.bx1) * (face.by2 - face.by1)) : ℝ) := by
        exact_mod_cast h2
      positivity
    · norm_num
  have hsz1 : min ((truncInt ((face.bx2 - face.bx1) * (face.by2 - face.by1)) : ℝ) / (200 * 200)) 1.0 ≤ 1 := by
    have := min_le_right ((truncInt ((face.bx2 - face.bx1) * (face.by2 - face.by1)) : ℝ) / (200 * 200)) 1.0
    linarith
  set raw := face.det_score * 0.3 + (1 - pp) * 0.25
      + (1 - calculate_blur img face.bx1 face.by1 face.bx2 face.by2) * 0.25
      + min ((truncInt ((face.bx2 - face.bx1) * (face.by2 - face.by1)) : ℝ) / (200 * 200)) 1.0 * 0.2
    with hraw
  have hraw0 : 0 ≤ raw := by
    rw [hraw]
    nlinarith [hdet.1, hblur.2, hsz0]
  have hraw1 : raw ≤ 1 := by
    rw [hraw]
    nlinarith [hdet.2, hblur.1, hsz1]
  rw [Set.mem_Icc]
  constructor
  · exact pyRound_nonneg 3 hraw0
  · calc pyRound 3 raw ≤ pyRound 3 1 := pyRound_mono 3 hraw1
    _ = 1 := pyRound_eq_self 3 1 1000 (by norm_num)

/-- Witness for the amended C1 at a concrete face. -/
theorem C1_witness :
    ((⟨0, 0, 1, 1, 1, some (0, 0, 0), [1]⟩ : Face).det_score ∈ Set.Icc (0:ℝ) 1) ∧
    (assess_face_quality ⟨0, 0, 1, 1, 1, some (0, 0, 0), [1]⟩ imgEmpty).score ∈ Set.Icc (0:ℝ) 1 := by
  constructor
  · rw [Set.mem_Icc]
    norm_num
  · exact (C1_quality_formula_and_bounds ⟨0, 0, 1, 1, 1, some (0, 0, 0), [1]⟩ imgEmpty
      (by rw [Set.mem_Icc]; norm_num) (by norm_num) (by norm_num)).2

/-! ## Claim C4 — no-face-detected behaviour across endpoints -/

theorem get_embedding_of_ne_nil {faces : List Face} (img : Img) (rq : Bool)
    (h : faces ≠ []) :
    ∃ f, get_best_face faces img = some f ∧
      get_embedding faces img rq = .ok (f.embedding, f.det_score, faces.length,
        if rq then some (assess_face_quality f img) else none) := by
  obtain ⟨f, hf⟩ := get_best_face_ne_none img h
  refine ⟨f, hf, ?_⟩
  unfold get_embedding
  rw [if_neg (fun hc => h (List.length_eq_zero.mp hc)), hf]

theorem get_embedding_true_of_ne_nil {faces : List Face} (img : Img) (h : faces ≠ []) :
    ∃ f, get_best_face faces img = some f ∧
      get_embedding faces img true = .ok (f.embedding, f.det_score, faces.length,
        some (assess_face_quality f img)) := by
  obtain ⟨f, hf, hok⟩ := get_embedding_of_ne_nil img true h
  refine ⟨f, hf, ?_⟩
  rw [hok]
  rfl

theorem get_embedding_nil (img : Img) (rq : Bool) :
    get_embedding [] img rq = .error (.http 400 "No face detected in image") := by
  unfold get_embedding
  simp

/-- C4 counterexample: on a no-face input, `enroll` does not surface any
error — the `HTTPException` from `get_embedding` is caught by the
`try/except` and converted into an ordinary response with
`success = false` (and the gallery is left unchanged). -/
theorem C4_counterexample :
    enrollE defaultConfig "u1" none [] imgEmpty [] =
      ([], ⟨"u1", false, none, "No face detected in image"⟩) := by
  unfold enrollE
  rw [get_embedding_nil]
  rfl

/-- C4 amended: with zero detected faces, embed, compare (either
image), search, verify (of an enrolled identity), identify and
liveness all fail with a ValidationError (an HTTP 400 `HTTPException`)
surfaced to the caller, and batch embedding captures the failure per
item without aborting the batch; enroll, however, catches the error
and returns an unsuccessful `EnrollResponse` instead of surfacing it. -/
theorem C4_no_face_behaviour (cfg : Config) (img img2 : Img) (g : Gallery)
    (uid : String) (name : Option String) (thrOpt : Option ℝ) (topk : ℕ) :
    (embedE [] img = .error (.http 400 "No face detected in image")) ∧
    (∀ faces2, compareE cfg [] img faces2 img2 =
      .error (.http 400 "No face detected in image")) ∧
    (∀ faces1, faces1 ≠ [] → compareE cfg faces1 img [] img2 =
      .error (.http 400 "No face detected in image")) ∧
    (searchE cfg [] img thrOpt topk g = .error (.http 400 "No face detected in image")) ∧
    (∀ rec, load_from_gallery g uid = some rec →
      verifyE cfg uid [] img g = .error (.http 400 "No face detected in image")) ∧
    (identifyE cfg [] img topk g = .error (.http 400 "No face detected in image")) ∧
    (livenessE [] img = .error (.http 400 "No face detected")) ∧
    SvcError.isValidationError (.http 400 "No face detected in image") ∧
    SvcError.isValidationError (.http 400 "No face detected") ∧
    (enrollE cfg uid name [] img g =
      (g, ⟨uid, false, none, "No face detected in image"⟩)) ∧
    (∀ items : List (List Face × Img),
      (batch_embed items).length = items.length ∧
      ∀ i : ℕ, ∀ imgi : Img, items[i]? = some ([], imgi) →
        (batch_embed items)[i]? =
          some ⟨false, none, none, some "No face detected in image"⟩) := by
  refine ⟨?_, ?_, ?_, ?_, ?_, ?_, ?_, ?_, ?_, ?_, ?_⟩
  · unfold embedE
    rw [get_embedding_nil]
  · intro faces2
    unfold compareE
    rw [get_embedding_nil]
  · intro faces1 h1
    obtain ⟨f, _, hok⟩ := get_embedding_of_ne_nil img true h1
    unfold compareE
    rw [hok, get_embedding_nil]
  · unfold searchE
    rw [get_embedding_nil]
  · intro rec hrec
    unfold verifyE
    rw [hrec, get_embedding_nil]
  · unfold identifyE
    simp
  · unfold livenessE
    simp
  · simp [SvcError.isValidationError]
  · simp [SvcError.isValidationError]
  · unfold enrollE
    rw [get_embedding_nil]
    rfl
  · intro items
    constructor
    · unfold batch_embed
      rw [List.length_map]
    · intro i imgi hi
      unfold batch_embed
      rw [List.getElem?_map, hi]
      simp [get_embedding_nil, errDetail]

/-- Witness for the amended C4 at concrete inputs. -/
theorem C4_witness :
    embedE [] imgEmpty = .error (.http 400 "No face detected in image") ∧
    load_from_gallery [("u1", ⟨[1], none⟩)] "u1" = some ⟨[1], none⟩ ∧
    verifyE defaultConfig "u1" [] imgEmpty [("u1", ⟨[1], none⟩)] =
      .error (.http 400 "No face detected in image") := by
  have hload : load_from_gallery [("u1", (⟨[1], none⟩ : Record))] "u1" = some ⟨[1], none⟩ := by
    unfold load_from_gallery
    rfl
  have h := C4_no_face_behaviour defaultConfig imgEmpty imgEmpty
    [("u1", ⟨[1], none⟩)] "u1" none none 5
  exact ⟨h.1, hload, h.2.2.2.2.1 ⟨[1], none⟩ hload⟩

/-! ## Claim C6 — enroll → verify round trip -/

theorem lookup_map_update (g : Gallery) (uid : String) (rec : Record)
    (hmem : (List.map Prod.fst g).contains uid = true) :
    List.lookup uid (List.map (fun p => if p.1 = uid then (uid, rec) else p) g)
      = some rec := by
  induction g with
  | nil => simp at hmem
  | cons p ps ih =>
      obtain ⟨k, b⟩ := p
      simp only [List.map_cons]
      by_cases hp : k = uid
      · rw [show (if (k, b).1 = uid then (uid, rec) else (k, b)) = (uid, rec) from
          if_pos hp]
        simp [List.lookup]
      · rw [show (if (k, b).1 = uid then (uid, rec) else (k, b)) = (k, b) from
          if_neg hp]
        have hne : (uid == k) = false :=
          beq_eq_false_iff_ne.mpr (fun hcon => hp hcon.symm)
        have hmem' : (List.map Prod.fst ps).contains uid = true := by
          simp only [List.map_cons, List.contains_cons, hne, Bool.false_or] at hmem
          exact hmem
        simp only [List.lookup, hne]
        exact ih hmem'

theorem lookup_append_single (g : Gallery) (uid : String) (rec : Record)
    (h : List.lookup uid g = none) :
    List.lookup uid (g ++ [(uid, rec)]) = some rec := by
  induction g with
  | nil => simp [List.lookup]
  | cons p ps ih =>
      obtain ⟨k, b⟩ := p
      rcases hbe : (uid == k) with _ | _
      · simp only [List.lookup, hbe] at h
        simp only [List.cons_append, List.lookup, hbe]
        exact ih h
      · simp only [List.lookup, hbe] at h
        cases h

theorem lookup_eq_none_of_not_contains (g : Gallery) (uid : String)
    (hmem : (List.map Prod.fst g).contains uid = false) :
    List.lookup uid g = none := by
  induction g with
  | nil => rfl
  | cons p ps ih =>
      obtain ⟨k, b⟩ := p
      rcases hbe : (uid == k) with _ | _
      · simp only [List.lookup, hbe]
        apply ih
        simp only [List.map_cons, List.contains_cons, hbe, Bool.false_or] at hmem
        exact hmem
      · simp only [List.map_cons, List.contains_cons, hbe, Bool.true_or] at hmem
        cases hmem

/-- Saving and then loading the same key yields the saved record
(Python dict write-then-read). -/
theorem load_save (g : Gallery) (uid : String) (rec : Record) :
    load_from_gallery (save_to_gallery g uid rec) uid = some rec := by
  unfold save_to_gallery load_from_gallery
  split
  · rename_i hmem
    exact lookup_map_update g uid rec hmem
  · rename_i hmem
    apply lookup_append_single
    rw [Bool.not_eq_true] at hmem
    exact lookup_eq_none_of_not_contains g uid hmem

/-- C6: after successfully enrolling `uid` from an image whose
extracted (best-face) embedding is `E`, verifying `uid` against a probe
image whose extracted embedding equals `E` loads the stored record,
gets cosine similarity exactly 1 against it, and verifies (for any
configured threshold at most 1). -/
theorem C6_enroll_verify_roundtrip (cfg : Config) (uid : String) (name : Option String)
    (faces : List Face) (img : Img) (g g' : Gallery) (resp : EnrollResponse)
    (probeFaces : List Face) (probeImg : Img) (pf : Face)
    (henroll : enrollE cfg uid name faces img g = (g', resp))
    (hsuccess : resp.success = true)
    (hface : probeFaces ≠ [])
    (hbest : get_best_face probeFaces probeImg = some pf)
    (hemb : ∀ bf, get_best_face faces img = some bf → pf.embedding = bf.embedding)
    (hnz : ∃ y ∈ pf.embedding, y ≠ 0)
    (hthr : cfg.matchThreshold ≤ 1) :
    verifyE cfg uid probeFaces probeImg g' =
      .ok ⟨uid, true, 1, cfg.matchThreshold, some (assess_face_quality pf probeImg)⟩ := by
  -- the enrolment must have come from a detected face
  have hfne : faces ≠ [] := by
    intro hcon
    subst hcon
    unfold enrollE at henroll
    rw [get_embedding_nil] at henroll
    have hfalse : resp.success = false := by
      cases henroll
      rfl
    rw [hsuccess] at hfalse
    cases hfalse
  obtain ⟨bf, hbf, hok⟩ := get_embedding_true_of_ne_nil img hfne
  -- a successful enrolment saved the extracted embedding
  have hg' : g' = save_to_gallery g uid ⟨bf.embedding, name⟩ := by
    unfold enrollE at henroll
    rw [hok] at henroll
    dsimp only at henroll
    by_cases hq : (assess_face_quality bf img).score < cfg.qualityThreshold
    · rw [if_pos hq] at henroll
      have hfalse : resp.success = false := by
        cases henroll
        rfl
      rw [hsuccess] at hfalse
      cases hfalse
    · rw [if_neg hq] at henroll
      cases henroll
      rfl
  -- verification against the stored record
  obtain ⟨pf', hpf', hok2⟩ := get_embedding_true_of_ne_nil probeImg hface
  have hpfe : pf' = pf := by
    rw [hbest] at hpf'
    exact (Option.some_inj.mp hpf').symm
  rw [hpfe] at hok2
  have hsim : cosine_similarity pf.embedding bf.embedding = 1 := by
    rw [← hemb bf hbf]
    exact cosine_similarity_self hnz
  unfold verifyE
  rw [hg', load_save, hok2]
  dsimp only
  rw [hsim, pyRound_eq_self 4 1 10000 (by norm_num), decide_eq_true hthr]

theorem faceW_score : (assess_face_quality faceW imgEmpty).score = 0.55 := by
  have hform : (assess_face_quality faceW imgEmpty).score = pyRound 3 (11/20) := by
    unfold assess_face_quality faceW
    simp only [blur_of_empty_crop]
    congr 1
    rw [show ((0:ℝ) - 0) * (0 - 0) = 0 by norm_num, truncInt_zero]
    norm_num
  rw [hform, pyRound_eq_self 3 _ 550 (by norm_num)]
  norm_num

/-- Witness for C6: a concrete enrol of `u1` with embedding `[3,4]`
followed by a verify of the same face. -/
theorem C6_witness :
    verifyE defaultConfig "u1" [faceW] imgEmpty [("u1", ⟨[3, 4], none⟩)] =
      .ok ⟨"u1", true, 1, defaultConfig.matchThreshold,
        some (assess_face_quality faceW imgEmpty)⟩ := by
  have hge : get_embedding [faceW] imgEmpty true =
      .ok ([3, 4], 1, 1, some (assess_face_quality faceW imgEmpty)) := rfl
  have hnotlt : ¬ ((assess_face_quality faceW imgEmpty).score <
      defaultConfig.qualityThreshold) := by
    rw [faceW_score]
    norm_num [defaultConfig]
  have henroll : enrollE defaultConfig "u1" none [faceW] imgEmpty [] =
      ([("u1", ⟨[3, 4], none⟩)],
       ⟨"u1", true, some (assess_face_quality faceW imgEmpty),
        "Face enrolled successfully"⟩) := by
    unfold enrollE
    rw [hge]
    dsimp only
    rw [if_neg hnotlt]
    rfl
  exact C6_enroll_verify_roundtrip defaultConfig "u1" none [faceW] imgEmpty []
    [("u1", ⟨[3, 4], none⟩)]
    ⟨"u1", true, some (assess_face_quality faceW imgEmpty), "Face enrolled successfully"⟩
    [faceW] imgEmpty faceW henroll rfl (by simp) rfl
    (fun bf hb => by rw [show bf = faceW from Option.some_inj.mp hb.symm])
    ⟨3, by simp [faceW], by norm_num⟩
    (by norm_num [defaultConfig])

/-! ## Claim C2 — search ranking -/

theorem cosine_similarity_eval (a b : List ℝ) (na nb : ℝ) (hna : 0 < na) (hnb : 0 < nb)
    (ha : sumSq a = na ^ 2) (hb : sumSq b = nb ^ 2) :
    cosine_similarity a b = dotl a b / (na * nb) := by
  unfold cosine_similarity
  rw [ha, hb, Real.sqrt_sq hna.le, Real.sqrt_sq hnb.le, if_neg]
  push_neg
  exact ⟨ne_of_gt hna, ne_of_gt hnb⟩

theorem cos_probe_A : cosine_similarity probeEx embA = 0.9 := by
  rw [cosine_similarity_eval probeEx embA 1 10 one_pos (by norm_num)
    (by simp [sumSq, probeEx]) (by simp [sumSq, embA]; norm_num)]
  simp [dotl, probeEx, embA]
  norm_num

theorem cos_probe_B : cosine_similarity probeEx embB = 0.6 := by
  rw [cosine_similarity_eval probeEx embB 1 10 one_pos (by norm_num)
    (by simp [sumSq, probeEx]) (by simp [sumSq, embB]; norm_num)]
  simp [dotl, probeEx, embB]
  norm_num

theorem cos_probe_C : cosine_similarity probeEx embC = 0.3 := by
  rw [cosine_similarity_eval probeEx embC 1 10 one_pos (by norm_num)
    (by simp [sumSq, probeEx]) (by simp [sumSq, embC]; norm_num)]
  simp [dotl, probeEx, embC]
  norm_num

theorem compute_matches_galEx (thr : ℝ) (hA : thr ≤ 0.9) (hB : thr ≤ 0.6)
    (hC : ¬ thr ≤ 0.3) :
    compute_matches probeEx galEx thr =
      [⟨"a", 0.9, none⟩, ⟨"b", 0.6, none⟩] := by
  unfold compute_matches galEx
  simp only [List.filterMap_cons, List.filterMap_nil]
  rw [cos_probe_A, cos_probe_B, cos_probe_C,
      if_pos hA, if_pos hB, if_neg hC,
      pyRound_eq_self 4 (0.9:ℝ) 9000 (by norm_num),
      pyRound_eq_self 4 (0.6:ℝ) 6000 (by norm_num)]

theorem sort_truncate_AB (topk : ℕ) (h2 : 2 ≤ topk) :
    sort_truncate [⟨"a", 0.9, none⟩, ⟨"b", 0.6, none⟩] topk =
      [⟨"a", 0.9, none⟩, ⟨"b", 0.6, none⟩] := by
  unfold sort_truncate
  rw [show ([(⟨"a", 0.9, none⟩ : SearchMatch), ⟨"b", 0.6, none⟩] : List SearchMatch).enum
      = [(0, ⟨"a", 0.9, none⟩), (1, ⟨"b", 0.6, none⟩)] from rfl]
  rw [show List.insertionSort matchRel
        [((0:ℕ), (⟨"a", 0.9, none⟩ : SearchMatch)), (1, ⟨"b", 0.6, none⟩)]
      = List.orderedInsert matchRel (0, ⟨"a", 0.9, none⟩)
          (List.orderedInsert matchRel (1, ⟨"b", 0.6, none⟩) []) from rfl]
  rw [show List.orderedInsert matchRel ((1:ℕ), (⟨"b", 0.6, none⟩ : SearchMatch)) []
      = [(1, ⟨"b", 0.6, none⟩)] from rfl]
  rw [List.orderedInsert, if_pos (show matchRel (0, ⟨"a", 0.9, none⟩) (1, ⟨"b", 0.6, none⟩)
      from Or.inl (by norm_num))]
  simp only [List.map_cons, List.map_nil]
  exact List.take_of_length_le (by simpa using h2)

/-- C2: `search`/`identify` ranking.  For every probe, gallery,
threshold and top-k: (i) every returned match comes from a gallery
entry whose similarity is at or above the threshold, carrying the
rounded similarity; (ii) before truncation the sorted list is exactly a
permutation of the retained entries; (iii) the result is sorted by
descending (reported) similarity; (iv) stability: equal similarities
keep ascending gallery positions; (v) the result length is
`min top_k (number retained)`; (vi) `search` applies the caller
override else the configured threshold, and `identify` applies 0.8×
the configured threshold; and the spec's worked example holds. -/
theorem C2_search_ranking (cfg : Config) (probe : List ℝ) (g : Gallery)
    (thr : ℝ) (topk : ℕ) :
    (∀ m ∈ sort_truncate (compute_matches probe g thr) topk,
       ∃ p ∈ g, m.user_id = p.1 ∧ m.name = p.2.name ∧
         thr ≤ cosine_similarity probe p.2.embedding ∧
         m.similarity = pyRound 4 (cosine_similarity probe p.2.embedding)) ∧
    (List.map Prod.snd
        (List.insertionSort matchRel (compute_matches probe g thr).enum)).Perm
      (compute_matches probe g thr) ∧
    List.Pairwise (fun m1 m2 => m2.similarity ≤ m1.similarity)
      (sort_truncate (compute_matches probe g thr) topk) ∧
    List.Pairwise (fun p q => q.2.similarity < p.2.similarity ∨
        (p.2.similarity = q.2.similarity ∧ p.1 < q.1))
      (List.insertionSort matchRel (compute_matches probe g thr).enum) ∧
    (sort_truncate (compute_matches probe g thr) topk).length
      = min topk (compute_matches probe g thr).length ∧
    (∀ faces img f thrOpt resp, faces ≠ [] → get_best_face faces img = some f →
       searchE cfg faces img thrOpt topk g = .ok resp → List.isEmpty g = false →
       resp.matches =
         sort_truncate (compute_matches f.embedding g (thrOpt.getD cfg.matchThreshold)) topk) ∧
    (∀ faces img f resp, faces ≠ [] → get_best_face faces img = some f →
       identifyE cfg faces img topk g = .ok resp → List.isEmpty g = false →
       resp.matches =
         sort_truncate (compute_matches f.embedding g (cfg.matchThreshold * 0.8)) topk) ∧
    sort_truncate (compute_matches probeEx galEx 0.5) 2 =
      [⟨"a", 0.9, none⟩, ⟨"b", 0.6, none⟩] := by
  have hperm0 : (List.insertionSort matchRel (compute_matches probe g thr).enum).Perm
      (compute_matches probe g thr).enum := List.perm_insertionSort _ _
  have hperm : (List.map Prod.snd
      (List.insertionSort matchRel (compute_matches probe g thr).enum)).Perm
      (compute_matches probe g thr) := by
    have h1 := hperm0.map Prod.snd
    rw [List.enum_map_snd] at h1
    exact h1
  have hsorted : List.Pairwise matchRel
      (List.insertionSort matchRel (compute_matches probe g thr).enum) :=
    List.sorted_insertionSort matchRel _
  refine ⟨?_, hperm, ?_, ?_, ?_, ?_, ?_, ?_⟩
  · -- (i) retention
    intro m hm
    have hm1 : m ∈ List.map Prod.snd
        (List.insertionSort matchRel (compute_matches probe g thr).enum) :=
      List.mem_of_mem_take (by simpa [sort_truncate] using hm)
    have hm2 : m ∈ compute_matches probe g thr := hperm.mem_iff.mp hm1
    unfold compute_matches at hm2
    obtain ⟨p, hp, hpm⟩ := List.mem_filterMap.mp hm2
    by_cases hc : thr ≤ cosine_similarity probe p.2.embedding
    · rw [if_pos hc] at hpm
      refine ⟨p, hp, ?_, ?_, hc, ?_⟩ <;> rw [← Option.some_inj.mp hpm]
    · rw [if_neg hc] at hpm
      cases hpm
  · -- (iii) descending
    apply List.Pairwise.sublist (List.take_sublist _ _)
    rw [List.pairwise_map]
    apply hsorted.imp
    intro p q hpq
    rcases hpq with h | ⟨h, _⟩
    · exact le_of_lt h
    · exact le_of_eq h.symm
  · -- (iv) stability
    have hfst : (List.map Prod.fst
        (List.insertionSort matchRel (compute_matches probe g thr).enum)).Nodup := by
      have h1 := (hperm0.map Prod.fst).nodup_iff
      rw [List.enum_map_fst] at h1
      exact h1.mpr (List.nodup_range _)
    have hfst' : List.Pairwise (fun p q : ℕ × SearchMatch => p.1 ≠ q.1)
        (List.insertionSort matchRel (compute_matches probe g thr).enum) :=
      (List.pairwise_map).mp hfst
    apply (hsorted.and hfst').imp
    intro p q hpq
    obtain ⟨hrel, hne⟩ := hpq
    rcases hrel with h | ⟨h, hle⟩
    · exact Or.inl h
    · exact Or.inr ⟨h, lt_of_le_of_ne hle hne⟩
  · -- (v) length
    unfold sort_truncate
    rw [List.length_take, List.length_map, hperm0.length_eq, List.enum_length]
  · -- (vi) search threshold
    intro faces img f thrOpt resp hne hbf hr hgne
    obtain ⟨f', hf', hok⟩ := get_embedding_true_of_ne_nil img hne
    rw [hbf] at hf'
    have hfe : f = f' := Option.some_inj.mp hf'
    subst hfe
    unfold searchE at hr
    rw [hok] at hr
    dsimp only at hr
    rw [if_neg (by rw [hgne]; exact Bool.false_ne_true)] at hr
    injection hr with h'
    rw [← h']
  · -- (vi) identify threshold
    intro faces img f resp hne hbf hr hgne
    unfold identifyE at hr
    rw [if_neg (fun hc => hne (List.length_eq_zero.mp hc)), hbf] at hr
    dsimp only at hr
    rw [if_neg (by rw [hgne]; exact Bool.false_ne_true)] at hr
    injection hr with h'
    rw [← h']
  · -- worked example
    rw [compute_matches_galEx 0.5 (by norm_num) (by norm_num) (by norm_num)]
    exact sort_truncate_AB 2 (le_refl 2)

/-- Witness for C2: the worked example evaluated concretely. -/
theorem C2_witness :
    sort_truncate (compute_matches probeEx galEx 0.5) 2 =
      [⟨"a", 0.9, none⟩, ⟨"b", 0.6, none⟩] :=
  (C2_search_ranking defaultConfig probeEx galEx 0.5 2).2.2.2.2.2.2.2

theorem identify_galEx :
    identifyE defaultConfig [faceP] imgEmpty 3 galEx = .ok respEx := by
  unfold identifyE
  rw [if_neg (by simp)]
  rw [show get_best_face [faceP] imgEmpty = some faceP from rfl]
  dsimp only
  rw [if_neg (by simp [galEx])]
  rw [show faceP.embedding = probeEx from rfl]
  rw [show defaultConfig.matchThreshold * 0.8 = (0.36:ℝ) from by norm_num [defaultConfig]]
  rw [compute_matches_galEx 0.36 (by norm_num) (by norm_num) (by norm_num)]
  rw [sort_truncate_AB 3 (by norm_num)]
  dsimp only
  rw [if_pos (show defaultConfig.matchThreshold ≤
    (⟨"a", 0.9, none⟩ : SearchMatch).similarity from by norm_num [defaultConfig])]
  rfl

/-- C8: when identify returns a non-empty candidate list, the
top-ranked candidate is reported as the confirmed identity
(`best_match` present and `identified = true`) iff its similarity is at
or above the full configured match threshold; below it, no confirmed
identity is reported even though the relaxed-threshold candidates are
listed. -/
theorem C8_identify_confirmation (cfg : Config) (faces : List Face) (img : Img)
    (topk : ℕ) (g : Gallery) (resp : IdentifyResponse)
    (m : SearchMatch) (ms : List SearchMatch)
    (hresp : identifyE cfg faces img topk g = .ok resp)
    (hms : resp.matches = m :: ms) :
    (cfg.matchThreshold ≤ m.similarity →
        resp.best_match = some m ∧ resp.identified = true) ∧
    (m.similarity < cfg.matchThreshold →
        resp.best_match = none ∧ resp.identified = false) := by
  unfold identifyE at hresp
  by_cases h0 : faces.length = 0
  · rw [if_pos h0] at hresp
    cases hresp
  · rw [if_neg h0] at hresp
    cases hbf : get_best_face faces img with
    | none =>
        rw [hbf] at hresp
        cases hresp
    | some face =>
        rw [hbf] at hresp
        dsimp only at hresp
        by_cases hemp : List.isEmpty g
        · rw [if_pos hemp] at hresp
          injection hresp with h'
          rw [← h'] at hms
          cases hms
        · rw [if_neg hemp] at hresp
          injection hresp with h'
          subst h'
          dsimp only at hms ⊢
          rw [hms]
          dsimp only
          constructor
          · intro hge
            rw [if_pos hge]
            exact ⟨rfl, rfl⟩
          · intro hlt
            rw [if_neg (not_le.mpr hlt)]
            exact ⟨rfl, rfl⟩

/-- Witness for C8: in the example identify run the top candidate has
similarity 0.9 ≥ 0.45 and is reported as the confirmed identity. -/
theorem C8_witness :
    respEx.best_match = some ⟨"a", 0.9, none⟩ ∧ respEx.identified = true :=
  (C8_identify_confirmation defaultConfig [faceP] imgEmpty 3 galEx respEx
    ⟨"a", 0.9, none⟩ [⟨"b", 0.6, none⟩] identify_galEx rfl).1
    (by norm_num [defaultConfig])

/-! ## Claim C10 — liveness never influences identification -/

/-- C10: the identification outputs of identify (`identified`,
`matches`, `best_match`) depend only on the best face's embedding, the
gallery and `top_k`; two requests whose best faces carry the same
embedding produce identical identification results regardless of their
liveness sub-scores or live decision. -/
theorem C10_identify_liveness_independent (cfg : Config)
    (faces1 : List Face) (img1 : Img) (faces2 : List Face) (img2 : Img)
    (topk : ℕ) (g : Gallery) (f1 f2 : Face) (r1 r2 : IdentifyResponse)
    (hb1 : get_best_face faces1 img1 = some f1)
    (hb2 : get_best_face faces2 img2 = some f2)
    (hne1 : faces1 ≠ []) (hne2 : faces2 ≠ [])
    (hemb : f1.embedding = f2.embedding)
    (hr1 : identifyE cfg faces1 img1 topk g = .ok r1)
    (hr2 : identifyE cfg faces2 img2 topk g = .ok r2) :
    r1.identified = r2.identified ∧ r1.matches = r2.matches ∧
      r1.best_match = r2.best_match := by
  unfold identifyE at hr1 hr2
  rw [if_neg (fun hc => hne1 (List.length_eq_zero.mp hc)), hb1] at hr1
  rw [if_neg (fun hc => hne2 (List.length_eq_zero.mp hc)), hb2] at hr2
  dsimp only at hr1 hr2
  by_cases hemp : List.isEmpty g
  · rw [if_pos hemp] at hr1 hr2
    injection hr1 with h1
    injection hr2 with h2
    subst h1
    subst h2
    exact ⟨rfl, rfl, rfl⟩
  · rw [if_neg hemp] at hr1 hr2
    injection hr1 with h1
    injection hr2 with h2
    subst h1
    subst h2
    rw [hemb]
    exact ⟨rfl, rfl, rfl⟩

/-- Witness for C10: two detections that share the embedding `[1, 0]`
but differ in detection confidence and pose (hence in quality and
liveness scores) identify identically. -/
theorem C10_witness :
    (IdentifyResponse.identified ⟨false, [], none,
        some (assess_face_quality ⟨0, 0, 0, 0, 1, some (0, 0, 0), [1, 0]⟩ imgEmpty),
        some (check_liveness ⟨0, 0, 0, 0, 1, some (0, 0, 0), [1, 0]⟩ imgEmpty)⟩) =
      (IdentifyResponse.identified ⟨false, [], none,
        some (assess_face_quality ⟨0, 0, 0, 0, 0.2, none, [1, 0]⟩ imgEmpty),
        some (check_liveness ⟨0, 0, 0, 0, 0.2, none, [1, 0]⟩ imgEmpty)⟩) := by
  exact (C10_identify_liveness_independent defaultConfig
    [⟨0, 0, 0, 0, 1, some (0, 0, 0), [1, 0]⟩] imgEmpty
    [⟨0, 0, 0, 0, 0.2, none, [1, 0]⟩] imgEmpty 3 []
    ⟨0, 0, 0, 0, 1, some (0, 0, 0), [1, 0]⟩ ⟨0, 0, 0, 0, 0.2, none, [1, 0]⟩
    _ _ rfl rfl (by simp) (by simp) rfl rfl rfl).1

/-! ## Claim C9 — face-proportion sub-score -/

theorem aspect_ne_06 (w h : ℤ) : (w:ℝ) / ((h:ℝ) + 1e-6) ≠ 0.6 := by
  intro heq
  have hd : ((h:ℝ) + 1e-6) ≠ 0 := by
    intro hc
    have h2 : ((10 ^ 6 * h : ℤ) : ℝ) = ((-1 : ℤ) : ℝ) := by
      push_cast
      linear_combination (10 ^ 6 : ℝ) * hc
    have hZ : (10 ^ 6 * h : ℤ) = -1 := by exact_mod_cast h2
    omega
  have heq' : (w:ℝ) = 0.6 * ((h:ℝ) + 1e-6) := by
    rw [div_eq_iff hd] at heq
    linarith [heq]
  have h2 : ((10 ^ 7 * w : ℤ) : ℝ) = ((6 * 10 ^ 6 * h + 6 : ℤ) : ℝ) := by
    push_cast
    linear_combination (10 ^ 7 : ℝ) * heq'
  have hZ : (10 ^ 7 * w : ℤ) = 6 * 10 ^ 6 * h + 6 := by exact_mod_cast h2
  omega

theorem aspect_ne_09 (w h : ℤ) : (w:ℝ) / ((h:ℝ) + 1e-6) ≠ 0.9 := by
  intro heq
  have hd : ((h:ℝ) + 1e-6) ≠ 0 := by
    intro hc
    have h2 : ((10 ^ 6 * h : ℤ) : ℝ) = ((-1 : ℤ) : ℝ) := by
      push_cast
      linear_combination (10 ^ 6 : ℝ) * hc
    have hZ : (10 ^ 6 * h : ℤ) = -1 := by exact_mod_cast h2
    omega
  have heq' : (w:ℝ) = 0.9 * ((h:ℝ) + 1e-6) := by
    rw [div_eq_iff hd] at heq
    linarith [heq]
  have h2 : ((10 ^ 7 * w : ℤ) : ℝ) = ((9 * 10 ^ 6 * h + 9 : ℤ) : ℝ) := by
    push_cast
    linear_combination (10 ^ 7 : ℝ) * heq'
  have hZ : (10 ^ 7 * w : ℤ) = 9 * 10 ^ 6 * h + 9 := by exact_mod_cast h2
  omega

/-- C9: for every integer bounding box, the liveness face-proportion
sub-score is 1.0 exactly when the width/height aspect ratio
`w/(h + 1e-6)` lies within the CLOSED interval [0.6, 0.9] (endpoints
included), and 0.5 otherwise.  The endpoints are unreachable for
integer box dimensions because of the `1e-6` in the denominator, so the
code's strict comparisons realise the closed interval. -/
theorem C9_face_proportion (w h : ℤ) :
    (face_proportion_score w h = 1.0 ↔
      (w:ℝ) / ((h:ℝ) + 1e-6) ∈ Set.Icc (0.6:ℝ) 0.9) ∧
    (face_proportion_score w h = 0.5 ↔
      (w:ℝ) / ((h:ℝ) + 1e-6) ∉ Set.Icc (0.6:ℝ) 0.9) := by
  have h6 := aspect_ne_06 w h
  have h9 := aspect_ne_09 w h
  simp only [face_proportion_score]
  by_cases hc : 0.6 < (w:ℝ) / ((h:ℝ) + 1e-6) ∧ (w:ℝ) / ((h:ℝ) + 1e-6) < 0.9
  · rw [if_pos hc]
    have hin : (w:ℝ) / ((h:ℝ) + 1e-6) ∈ Set.Icc (0.6:ℝ) 0.9 :=
      Set.mem_Icc.mpr ⟨le_of_lt hc.1, le_of_lt hc.2⟩
    constructor
    · exact ⟨fun _ => hin, fun _ => rfl⟩
    · constructor
      · intro hcon
        norm_num at hcon
      · intro hcon
        exact absurd hin hcon
  · rw [if_neg hc]
    have hnot : (w:ℝ) / ((h:ℝ) + 1e-6) ∉ Set.Icc (0.6:ℝ) 0.9 := by
      intro hmem
      rw [Set.mem_Icc] at hmem
      exact hc ⟨lt_of_le_of_ne hmem.1 (Ne.symm h6), lt_of_le_of_ne hmem.2 h9⟩
    constructor
    · constructor
      · intro hcon
        norm_num at hcon
      · intro hmem
        exact absurd hmem hnot
    · exact ⟨fun _ => hnot, fun _ => rfl⟩

/-! ## Claim C5 — liveness combined confidence -/

theorem pyRound3_bounds {x u : ℝ} (hx0 : 0 ≤ x) (hxu : x ≤ u) (ku : ℤ)
    (hku : u * 10 ^ 3 = (ku : ℝ)) :
    0 ≤ pyRound 3 x ∧ pyRound 3 x ≤ u :=
  ⟨pyRound_nonneg 3 hx0,
   le_trans (pyRound_mono 3 hxu) (le_of_eq (pyRound_eq_self 3 u ku hku))⟩

theorem screen_score_bounds {mean low : ℝ} (hm : 0 ≤ mean) (hl : 0 ≤ low) :
    0 ≤ 1.0 - min ((mean - low) / (low + 1e-6) / 2) 1.0 ∧
    1.0 - min ((mean - low) / (low + 1e-6) / 2) 1.0 ≤ 1.5 := by
  constructor
  · have h1 := min_le_right ((mean - low) / (low + 1e-6) / 2) 1.0
    have h2 : (1.0:ℝ) ≤ 1 := by norm_num
    linarith
  · have hpos : (0:ℝ) < low + 1e-6 := by
      have : (0:ℝ) < 1e-6 := by norm_num
      linarith
    have hge : (-1:ℝ) ≤ (mean - low) / (low + 1e-6) := by
      rw [le_div_iff₀ hpos]
      linarith
    have h3 : (-1/2 : ℝ) ≤ min ((mean - low) / (low + 1e-6) / 2) 1.0 :=
      le_min (by linarith) (by norm_num)
    linarith

theorem color_score_bounds (cond : Prop) [Decidable cond] {v : ℝ} (hv0 : 0 ≤ v) :
    0 ≤ (if cond then (1.0:ℝ) else 0.6) * 0.5 + min (v / 150) 1.0 * 0.5 ∧
    (if cond then (1.0:ℝ) else 0.6) * 0.5 + min (v / 150) 1.0 * 0.5 ≤ 1 := by
  have h1 : (0:ℝ) ≤ min (v / 150) 1.0 := le_min (by positivity) (by norm_num)
  have h2 : min (v / 150) 1.0 ≤ 1 := by
    have := min_le_right (v / 150) 1.0
    linarith
  split_ifs <;> constructor <;> linarith

theorem face_proportion_score_bounds (w h : ℤ) :
    0 ≤ face_proportion_score w h ∧ face_proportion_score w h ≤ 1 := by
  simp only [face_proportion_score]
  split_ifs <;> norm_num

theorem min_div_bounds {g : ℝ} (hg : 0 ≤ g) {k : ℝ} (hk : 0 < k) :
    0 ≤ min (g / k) 1.0 ∧ min (g / k) 1.0 ≤ 1 := by
  constructor
  · exact le_min (by positivity) (by norm_num)
  · have := min_le_right (g / k) 1.0
    linarith

theorem weighted_sum_bounds {s c p d t : ℝ}
    (hs : 0 ≤ s ∧ s ≤ 1.5) (hc : 0 ≤ c ∧ c ≤ 1) (hp : 0 ≤ p ∧ p ≤ 1)
    (hd : 0 ≤ d ∧ d ≤ 1) (ht : 0 ≤ t ∧ t ≤ 1) :
    0 ≤ s * 0.25 + c * 0.2 + p * 0.1 + d * 0.25 + t * 0.2 ∧
      s * 0.25 + c * 0.2 + p * 0.1 + d * 0.25 + t * 0.2 ≤ 1.13 := by
  constructor
  · nlinarith [hs.1, hc.1, hp.1, hd.1, ht.1]
  · nlinarith [hs.2, hc.2, hp.2, hd.2, ht.2]

theorem meanN_eq_none {m : GMat} : GMat.meanN m = none ↔ m.h = 0 ∨ m.w = 0 := by
  unfold GMat.meanN
  split_ifs with h
  · simp [h]
  · simp [h]

theorem meanN_eq_some {m : GMat} {x : ℝ} (h : GMat.meanN m = some x) : x = m.mean := by
  unfold GMat.meanN at h
  split_ifs at h
  exact (Option.some_inj.mp h).symm

theorem addN_none_iff {a b : Option ℝ} : addN a b = none ↔ a = none ∨ b = none := by
  cases a <;> cases b <;> simp [addN]

theorem addN_eq_some {a b : Option ℝ} {v : ℝ} (h : addN a b = some v) :
    ∃ x y, a = some x ∧ b = some y ∧ v = x + y := by
  cases a with
  | none => exact Option.noConfusion h
  | some x =>
    cases b with
    | none => exact Option.noConfusion h
    | some y => exact ⟨x, y, rfl, rfl, (Option.some_inj.mp h).symm⟩

theorem gtN_some_iff {v t : ℝ} : gtN (some v) t = true ↔ t < v := by
  unfold gtN
  exact decide_eq_true_iff

theorem liveness_combined_some (c : LivenessChecks) (t : ℝ)
    (h : c.texture_complexity = some t) :
    liveness_combined c =
      some (c.screen_pattern * 0.25 + c.color_distribution * 0.2 + c.face_proportion * 0.1 +
        c.detection_confidence * 0.25 + t * 0.2) := by
  unfold liveness_combined
  rw [h, Option.map_some']

theorem liveness_combined_none (c : LivenessChecks)
    (h : c.texture_complexity = none) : liveness_combined c = none := by
  unfold liveness_combined
  rw [h]
  rfl

/-- C5 amended: for every face whose crop is non-degenerate and whose
detection confidence is in [0,1], the liveness result carries five
sub-scores (each rounded to 3 decimals); the combined confidence is
their weighted sum with weights screen 0.25, color 0.20, proportion
0.10, detection 0.25, texture 0.20 (the 0.5 default for a missing
sub-score is never consulted since all five keys are always present);
whenever that sum is a number, the live decision is true iff it
strictly exceeds 0.55 and it lies in [0, 1.13] — but NOT always in
[0, 1]: the screen-pattern sub-score can exceed 1 (counterexample
below), though never 1.5.  Moreover, exactly on crops 1 pixel tall or
wide the texture sub-score is NaN (the mean of an empty `np.diff`
array), the confidence is NaN, and the face is reported not live. -/
theorem C5_liveness_combination (face : Face) (img : Img)
    (hdet : face.det_score ∈ Set.Icc (0:ℝ) 1)
    (hnd : (liveness_region face img).h * (liveness_region face img).w ≠ 0) :
    ∃ c : LivenessChecks,
      check_liveness face img =
        ⟨gtN (liveness_combined c) 0.55, (liveness_combined c).map (pyRound 3), some c⟩ ∧
      (∀ t, c.texture_complexity = some t →
        liveness_combined c =
          some (c.screen_pattern * 0.25 + c.color_distribution * 0.2 +
            c.face_proportion * 0.1 + c.detection_confidence * 0.25 + t * 0.2)) ∧
      (c.texture_complexity = none ↔
        (liveness_region face img).h = 1 ∨ (liveness_region face img).w = 1) ∧
      (c.texture_complexity = none →
        (check_liveness face img).is_live = false ∧
        (check_liveness face img).confidence = none) ∧
      (∀ v, liveness_combined c = some v →
        ((check_liveness face img).is_live = true ↔ 0.55 < v) ∧ 0 ≤ v ∧ v ≤ 1.13) := by
  rw [Set.mem_Icc] at hdet
  have hh : (liveness_region face img).h ≠ 0 := by
    intro h0
    exact hnd (by rw [h0, Nat.zero_mul])
  have hw : (liveness_region face img).w ≠ 0 := by
    intro h0
    exact hnd (by rw [h0, Nat.mul_zero])
  unfold check_liveness
  rw [if_neg hnd]
  dsimp only
  refine ⟨_, rfl, ?_, ?_, ?_, ?_⟩
  · intro t ht
    exact liveness_combined_some _ t ht
  · rw [Option.map_eq_none', Option.map_eq_none', addN_none_iff,
        meanN_eq_none, meanN_eq_none]
    dsimp only
    omega
  · intro hnone
    rw [liveness_combined_none _ hnone]
    exact ⟨rfl, rfl⟩
  · intro v hv
    refine ⟨by rw [hv]; exact gtN_some_iff, ?_⟩
    unfold liveness_combined at hv
    dsimp only at hv
    obtain ⟨t, htex, hsum⟩ := Option.map_eq_some'.mp hv
    obtain ⟨y, hy, hyt⟩ := Option.map_eq_some'.mp htex
    obtain ⟨g, hg, hgy⟩ := Option.map_eq_some'.mp hy
    obtain ⟨a, b, ha, hb, hab⟩ := addN_eq_some hg
    have ha0 : 0 ≤ a := by
      rw [meanN_eq_some ha]
      exact GMat.mean_nonneg _ (fun i j _ _ => abs_nonneg _)
    have hb0 : 0 ≤ b := by
      rw [meanN_eq_some hb]
      exact GMat.mean_nonneg _ (fun i j _ _ => abs_nonneg _)
    have hg0 : 0 ≤ g := by
      rw [hab]
      exact add_nonneg ha0 hb0
    have hy01 : 0 ≤ y ∧ y ≤ 1 := by
      rw [← hgy]
      exact min_div_bounds hg0 (by norm_num)
    have ht01 : 0 ≤ t ∧ t ≤ 1 := by
      rw [← hyt]
      exact pyRound3_bounds hy01.1 hy01.2 1000 (by norm_num)
    have hm : 0 ≤ (magnitudeShift ((liveness_region face img).grayMean)).mean :=
      GMat.mean_nonneg _ (fun i j _ _ => AbsoluteValue.nonneg Complex.abs _)
    have hl : 0 ≤ ((magnitudeShift ((liveness_region face img).grayMean)).slice
        (((magnitudeShift ((liveness_region face img).grayMean)).h : ℤ) / 2 - 10)
        (((magnitudeShift ((liveness_region face img).grayMean)).h : ℤ) / 2 + 10)
        (((magnitudeShift ((liveness_region face img).grayMean)).w : ℤ) / 2 - 10)
        (((magnitudeShift ((liveness_region face img).grayMean)).w : ℤ) / 2 + 10)).mean :=
      GMat.mean_nonneg _ (fun i j _ _ => AbsoluteValue.nonneg Complex.abs _)
    rw [← hsum]
    exact weighted_sum_bounds
      (pyRound3_bounds (screen_score_bounds hm hl).1 (screen_score_bounds hm hl).2
        1500 (by norm_num))
      (pyRound3_bounds (color_score_bounds _ (by positivity)).1
        (color_score_bounds _ (by positivity)).2 1000 (by norm_num))
      (pyRound3_bounds (face_proportion_score_bounds _ _).1
        (face_proportion_score_bounds _ _).2 1000 (by norm_num))
      (pyRound3_bounds hdet.1 hdet.2 1000 (by norm_num))
      ht01

theorem truncInt_natCast (n : ℕ) : truncInt (n : ℝ) = n := by
  unfold truncInt
  rw [if_neg (not_lt.mpr (Nat.cast_nonneg n))]
  exact_mod_cast Int.floor_natCast n

theorem region_1x1 : liveness_region ⟨0, 0, 1, 1, 1, none, [1]⟩ img1x1 =
    Img.slice img1x1 0 1 0 1 := by
  unfold liveness_region
  rw [truncInt_zero, show truncInt ((1:ℝ)) = 1 from by
    rw [show (1:ℝ) = ((1:ℕ):ℝ) by norm_num, truncInt_natCast]; rfl]
  rfl

/-- Witness for the amended C5 at a concrete 1×1 crop (on which the
texture sub-score and the confidence are NaN and the face is reported
not live). -/
theorem C5_witness :
    (liveness_region ⟨0, 0, 1, 1, 1, none, [1]⟩ img1x1).h *
      (liveness_region ⟨0, 0, 1, 1, 1, none, [1]⟩ img1x1).w ≠ 0 ∧
    ∃ c : LivenessChecks,
      check_liveness ⟨0, 0, 1, 1, 1, none, [1]⟩ img1x1 =
        ⟨gtN (liveness_combined c) 0.55, (liveness_combined c).map (pyRound 3), some c⟩ ∧
      (∀ t, c.texture_complexity = some t →
        liveness_combined c =
          some (c.screen_pattern * 0.25 + c.color_distribution * 0.2 +
            c.face_proportion * 0.1 + c.detection_confidence * 0.25 + t * 0.2)) ∧
      (c.texture_complexity = none ↔
        (liveness_region ⟨0, 0, 1, 1, 1, none, [1]⟩ img1x1).h = 1 ∨
          (liveness_region ⟨0, 0, 1, 1, 1, none, [1]⟩ img1x1).w = 1) ∧
      (c.texture_complexity = none →
        (check_liveness ⟨0, 0, 1, 1, 1, none, [1]⟩ img1x1).is_live = false ∧
        (check_liveness ⟨0, 0, 1, 1, 1, none, [1]⟩ img1x1).confidence = none) ∧
      (∀ v, liveness_combined c = some v →
        ((check_liveness ⟨0, 0, 1, 1, 1, none, [1]⟩ img1x1).is_live = true ↔ 0.55 < v) ∧
          0 ≤ v ∧ v ≤ 1.13) := by
  have hnd : (liveness_region ⟨0, 0, 1, 1, 1, none, [1]⟩ img1x1).h *
      (liveness_region ⟨0, 0, 1, 1, 1, none, [1]⟩ img1x1).w ≠ 0 := by
    rw [region_1x1]
    norm_num [Img.slice, pyBound, img1x1]
  exact ⟨hnd, C5_liveness_combination ⟨0, 0, 1, 1, 1, none, [1]⟩ img1x1
    (by rw [Set.mem_Icc]; norm_num) hnd⟩

theorem regionC5 : liveness_region faceC5 imgC5 = imgC5 := by
  unfold liveness_region faceC5
  rw [truncInt_zero,
    show truncInt ((22:ℝ)) = 22 from by
      rw [show (22:ℝ) = ((22:ℕ):ℝ) by norm_num, truncInt_natCast]; rfl,
    show truncInt ((36:ℝ)) = 36 from by
      rw [show (36:ℝ) = ((36:ℕ):ℝ) by norm_num, truncInt_natCast]; rfl]
  show Img.slice imgC5 (max 0 0) (min ((imgC5.h : ℤ)) 36) (max 0 0) (min ((imgC5.w : ℤ)) 22)
    = imgC5
  rw [show max (0:ℤ) 0 = 0 from rfl,
      show min ((imgC5.h : ℤ)) 36 = 36 from rfl,
      show min ((imgC5.w : ℤ)) 22 = 22 from rfl]
  unfold Img.slice
  dsimp only
  congr 1
  funext i j
  rw [show pyBound imgC5.h 0 = 0 from rfl, show pyBound imgC5.w 0 = 0 from rfl,
      Nat.zero_add, Nat.zero_add]
  rfl

theorem grayC5 : imgC5.grayMean = GC5 := by
  unfold Img.grayMean imgC5 GC5
  congr 1
  funext m n
  dsimp only
  ring

theorem two_pi_I_ne_zero' : (2 * (Real.pi : ℂ) * Complex.I) ≠ 0 :=
  mul_ne_zero (mul_ne_zero two_ne_zero (Complex.ofReal_ne_zero.mpr Real.pi_ne_zero))
    Complex.I_ne_zero

theorem rootSum_dvd (N : ℕ) (hN : 0 < N) (j : ℤ) (h : (N:ℤ) ∣ j) :
    rootSum N j = N := by
  have hNC : (N:ℂ) ≠ 0 := Nat.cast_ne_zero.mpr hN.ne'
  obtain ⟨t, ht⟩ := h
  unfold rootSum
  have hone : ∀ m ∈ Finset.range N,
      Complex.exp (-(2 * (Real.pi:ℂ) * Complex.I) * j * m / N) = 1 := by
    intro m _
    have harg : -(2 * (Real.pi:ℂ) * Complex.I) * j * m / N
        = ((-t * m : ℤ) : ℂ) * (2 * (Real.pi:ℂ) * Complex.I) := by
      rw [ht]
      push_cast
      field_simp
      ring
    rw [harg, Complex.exp_int_mul_two_pi_mul_I]
  rw [Finset.sum_congr rfl hone]
  simp

theorem rootSum_not_dvd (N : ℕ) (hN : 0 < N) (j : ℤ) (h : ¬ (N:ℤ) ∣ j) :
    rootSum N j = 0 := by
  have hNC : (N:ℂ) ≠ 0 := Nat.cast_ne_zero.mpr hN.ne'
  have hterm : ∀ m ∈ Finset.range N,
      Complex.exp (-(2 * (Real.pi:ℂ) * Complex.I) * j * m / N)
        = Complex.exp (-(2 * (Real.pi:ℂ) * Complex.I) * j / N) ^ m := by
    intro m _
    rw [← Complex.exp_nat_mul]
    congr 1
    ring
  have hζN : Complex.exp (-(2 * (Real.pi:ℂ) * Complex.I) * j / N) ^ N = 1 := by
    rw [← Complex.exp_nat_mul]
    have harg : (N:ℂ) * (-(2 * (Real.pi:ℂ) * Complex.I) * j / N)
        = ((-j : ℤ) : ℂ) * (2 * (Real.pi:ℂ) * Complex.I) := by
      push_cast
      field_simp
      ring
    rw [harg, Complex.exp_int_mul_two_pi_mul_I]
  have hζ1 : Complex.exp (-(2 * (Real.pi:ℂ) * Complex.I) * j / N) ≠ 1 := by
    intro hcon
    obtain ⟨n, hn⟩ := Complex.exp_eq_one_iff.mp hcon
    apply h
    have h1 : -(2 * (Real.pi:ℂ) * Complex.I) * j
        = n * (2 * (Real.pi:ℂ) * Complex.I) * N := by
      have h0 := congrArg (fun z => z * (N:ℂ)) hn
      dsimp only at h0
      rw [div_mul_cancel₀ _ hNC] at h0
      exact h0
    have h2 : (2 * (Real.pi:ℂ) * Complex.I) * (-(j:ℂ))
        = (2 * (Real.pi:ℂ) * Complex.I) * ((n:ℂ) * N) := by
      linear_combination h1
    have h3 : -(j:ℂ) = (n:ℂ) * N := mul_left_cancel₀ two_pi_I_ne_zero' h2
    have h4 : (j:ℂ) = ((-(n * N) : ℤ) : ℂ) := by
      push_cast
      linear_combination -h3
    have h5 : j = -(n * N) := by exact_mod_cast h4
    exact ⟨-n, by rw [h5]; ring⟩
  unfold rootSum
  rw [Finset.sum_congr rfl hterm, geom_sum_eq hζ1, hζN]
  simp

theorem sgn_cast_pow (m : ℕ) : ((sgn m : ℝ) : ℂ) = (-1) ^ m := by
  unfold sgn
  rcases Nat.even_or_odd m with he | ho
  · rw [if_pos (Nat.even_iff.mp he), he.neg_one_pow]
    norm_num
  · rw [if_neg (by rw [Nat.odd_iff.mp ho]; norm_num), ho.neg_one_pow]
    norm_num

theorem fft2_GC5 (k l : ℕ) :
    fft2 GC5 k l
      = (204 * rootSum 36 (k:ℤ) + 50 * rootSum 36 ((k:ℤ) + 18)) * rootSum 22 (l:ℤ) := by
  have hsplit : ∀ m n : ℕ, ((204 + 50 * sgn m : ℝ) : ℂ) *
      Complex.exp (-(2 * (Real.pi:ℂ) * Complex.I) *
        (((k * m : ℕ) : ℂ) / ((36:ℕ) : ℂ) + ((l * n : ℕ) : ℂ) / ((22:ℕ) : ℂ)))
      = (204 * Complex.exp (-(2 * (Real.pi:ℂ) * Complex.I) * (k:ℂ) * (m:ℂ) / 36)
         + 50 * Complex.exp (-(2 * (Real.pi:ℂ) * Complex.I) * ((k:ℂ) + 18) * (m:ℂ) / 36))
        * Complex.exp (-(2 * (Real.pi:ℂ) * Complex.I) * (l:ℂ) * (n:ℂ) / 22) := by
    intro m n
    rw [show -(2 * (Real.pi:ℂ) * Complex.I) *
        (((k * m : ℕ) : ℂ) / ((36:ℕ) : ℂ) + ((l * n : ℕ) : ℂ) / ((22:ℕ) : ℂ))
        = (-(2 * (Real.pi:ℂ) * Complex.I) * (k:ℂ) * (m:ℂ) / 36)
          + (-(2 * (Real.pi:ℂ) * Complex.I) * (l:ℂ) * (n:ℂ) / 22) from by
      push_cast
      ring]
    rw [Complex.exp_add]
    rw [show ((204 + 50 * sgn m : ℝ) : ℂ) = 204 + 50 * ((sgn m : ℝ) : ℂ) from by
      push_cast
      ring]
    rw [sgn_cast_pow]
    rw [show -(2 * (Real.pi:ℂ) * Complex.I) * ((k:ℂ) + 18) * (m:ℂ) / 36
        = (-(2 * (Real.pi:ℂ) * Complex.I) * (k:ℂ) * (m:ℂ) / 36)
          + (m:ℂ) * (-((Real.pi:ℂ) * Complex.I)) from by ring]
    rw [Complex.exp_add]
    have hm : Complex.exp ((m:ℂ) * (-((Real.pi:ℂ) * Complex.I))) = (-1:ℂ) ^ m := by
      rw [Complex.exp_nat_mul, Complex.exp_neg, Complex.exp_pi_mul_I]
      norm_num
    rw [hm]
    ring
  unfold fft2 GC5
  dsimp only
  rw [Finset.sum_congr rfl (fun m _ => Finset.sum_congr rfl (fun n _ => hsplit m n))]
  rw [← Finset.sum_mul_sum]
  congr 1
  · rw [Finset.sum_add_distrib, ← Finset.mul_sum, ← Finset.mul_sum]
    congr 1
    · congr 1
      unfold rootSum
      apply Finset.sum_congr rfl
      intro m _
      congr 1
      push_cast
      all_goals ring

theorem fft2_GC5_eval (k l : ℕ) (hk : k < 36) (hl : l < 22) :
    fft2 GC5 k l = if k = 0 ∧ l = 0 then (161568:ℂ)
      else if k = 18 ∧ l = 0 then 39600 else 0 := by
  rw [fft2_GC5]
  have h36 : (0:ℕ) < 36 := by norm_num
  have h22 : (0:ℕ) < 22 := by norm_num
  by_cases hk0 : k = 0
  · subst hk0
    rw [rootSum_dvd 36 h36 ((0:ℕ):ℤ) ⟨0, by norm_num⟩,
        rootSum_not_dvd 36 h36 (((0:ℕ):ℤ) + 18) (fun hdvd => by
          obtain ⟨t, ht⟩ := hdvd
          omega)]
    by_cases hl0 : l = 0
    · subst hl0
      rw [rootSum_dvd 22 h22 ((0:ℕ):ℤ) ⟨0, by norm_num⟩]
      norm_num
    · rw [rootSum_not_dvd 22 h22 ((l:ℕ):ℤ) (fun hdvd => by
          obtain ⟨t, ht⟩ := hdvd
          omega)]
      rw [if_neg (by simp [hl0]), if_neg (by simp [hl0])]
      ring
  · rw [rootSum_not_dvd 36 h36 ((k:ℕ):ℤ) (fun hdvd => by
        obtain ⟨t, ht⟩ := hdvd
        omega)]
    by_cases hk18 : k = 18
    · subst hk18
      rw [rootSum_dvd 36 h36 (((18:ℕ):ℤ) + 18) ⟨1, by norm_num⟩]
      by_cases hl0 : l = 0
      · subst hl0
        rw [rootSum_dvd 22 h22 ((0:ℕ):ℤ) ⟨0, by norm_num⟩]
        norm_num
      · rw [rootSum_not_dvd 22 h22 ((l:ℕ):ℤ) (fun hdvd => by
            obtain ⟨t, ht⟩ := hdvd
            omega)]
        rw [if_neg (by simp [hl0]), if_neg (by simp [hl0])]
        ring
    · rw [rootSum_not_dvd 36 h36 (((k:ℕ):ℤ) + 18) (fun hdvd => by
          obtain ⟨t, ht⟩ := hdvd
          omega)]
      rw [if_neg (by simp [hk0]), if_neg (by simp [hk18])]
      ring

theorem MvalC5 (r c : ℕ) (hr : r < 36) (hc : c < 22) :
    (magnitudeShift GC5).v r c =
      if r = 18 ∧ c = 11 then 161568 else if r = 0 ∧ c = 11 then 39600 else 0 := by
  unfold magnitudeShift
  dsimp only
  rw [show GC5.h = 36 from rfl, show GC5.w = 22 from rfl]
  rw [fft2_GC5_eval ((r + 36 - 36 / 2) % 36) ((c + 22 - 22 / 2) % 22)
    (Nat.mod_lt _ (by norm_num)) (Nat.mod_lt _ (by norm_num))]
  by_cases h1 : r = 18 ∧ c = 11
  · rw [if_pos (show (r + 36 - 36 / 2) % 36 = 0 ∧ (c + 22 - 22 / 2) % 22 = 0 by omega),
        if_pos h1]
    rw [show (161568:ℂ) = ((161568:ℝ):ℂ) by norm_num, Complex.abs_ofReal]
    norm_num
  · rw [if_neg (show ¬((r + 36 - 36 / 2) % 36 = 0 ∧ (c + 22 - 22 / 2) % 22 = 0) by omega),
        if_neg h1]
    by_cases h2 : r = 0 ∧ c = 11
    · rw [if_pos (show (r + 36 - 36 / 2) % 36 = 18 ∧ (c + 22 - 22 / 2) % 22 = 0 by omega),
          if_pos h2]
      rw [show (39600:ℂ) = ((39600:ℝ):ℂ) by norm_num, Complex.abs_ofReal]
      norm_num
    · rw [if_neg (show ¬((r + 36 - 36 / 2) % 36 = 18 ∧ (c + 22 - 22 / 2) % 22 = 0) by omega),
          if_neg h2]
      simp

theorem ite_and_swap (p q : Prop) [Decidable p] [Decidable q] (a : ℝ) :
    (if p ∧ q then a else 0) = if q then (if p then a else 0) else 0 := by
  by_cases hp : p <;> by_cases hq : q <;> simp [hp, hq]

theorem MsumC5 : (magnitudeShift GC5).sum = 201168 := by
  unfold GMat.sum
  rw [show (magnitudeShift GC5).h = 36 from rfl, show (magnitudeShift GC5).w = 22 from rfl]
  rw [Finset.sum_congr rfl (fun r hr => Finset.sum_congr rfl (fun c hc =>
    MvalC5 r c (Finset.mem_range.mp hr) (Finset.mem_range.mp hc)))]
  have hsplit : ∀ r c : ℕ,
      (if r = 18 ∧ c = 11 then (161568:ℝ) else if r = 0 ∧ c = 11 then 39600 else 0)
      = (if r = 18 ∧ c = 11 then 161568 else 0)
        + (if r = 0 ∧ c = 11 then (39600:ℝ) else 0) := by
    intro r c
    by_cases h1 : r = 18 ∧ c = 11
    · rw [if_pos h1, if_pos h1, if_neg (fun h2 => by omega)]
      norm_num
    · rw [if_neg h1, if_neg h1]
      rw [zero_add]
  rw [Finset.sum_congr rfl (fun r _ => Finset.sum_congr rfl (fun c _ => hsplit r c))]
  rw [Finset.sum_congr rfl (fun r _ => Finset.sum_add_distrib), Finset.sum_add_distrib]
  have hone : ∀ (A : ℝ) (r0 : ℕ), r0 ∈ Finset.range 36 →
      (∑ r ∈ Finset.range 36, ∑ c ∈ Finset.range 22,
        (if r = r0 ∧ c = 11 then A else 0)) = A := by
    intro A r0 hr0
    rw [Finset.sum_congr rfl (fun r _ => Finset.sum_congr rfl (fun c _ =>
      ite_and_swap (r = r0) (c = 11) A))]
    rw [Finset.sum_congr rfl (fun r _ =>
      Finset.sum_ite_eq' (Finset.range 22) 11 (fun _ => if r = r0 then A else 0))]
    rw [Finset.sum_congr rfl (fun r _ => if_pos (by norm_num : (11:ℕ) ∈ Finset.range 22))]
    rw [Finset.sum_ite_eq' (Finset.range 36) r0 (fun _ => A), if_pos hr0]
  rw [hone 161568 18 (by norm_num), hone 39600 0 (by norm_num)]
  norm_num

theorem MmeanC5 : (magnitudeShift GC5).mean = 254 := by
  unfold GMat.mean
  rw [MsumC5, show (magnitudeShift GC5).h = 36 from rfl,
      show (magnitudeShift GC5).w = 22 from rfl]
  norm_num

theorem MwindowC5 : ((magnitudeShift GC5).slice 8 28 1 21).mean = 40392/100 := by
  unfold GMat.mean GMat.sum GMat.slice
  dsimp only
  rw [show (magnitudeShift GC5).h = 36 from rfl, show (magnitudeShift GC5).w = 22 from rfl]
  rw [show pyBound 36 8 = 8 from rfl, show pyBound 36 28 = 28 from rfl,
      show pyBound 22 1 = 1 from rfl, show pyBound 22 21 = 21 from rfl]
  have hval : ∀ i ∈ Finset.range (28 - 8), ∀ j ∈ Finset.range (21 - 1),
      (magnitudeShift GC5).v (8 + i) (1 + j)
        = if i = 10 ∧ j = 10 then (161568:ℝ) else 0 := by
    intro i hi j hj
    rw [Finset.mem_range] at hi hj
    rw [MvalC5 (8 + i) (1 + j) (by omega) (by omega)]
    by_cases h1 : i = 10 ∧ j = 10
    · rw [if_pos (by omega : 8 + i = 18 ∧ 1 + j = 11), if_pos h1]
    · rw [if_neg (by omega : ¬(8 + i = 18 ∧ 1 + j = 11)),
          if_neg (by omega : ¬(8 + i = 0 ∧ 1 + j = 11)), if_neg h1]
  rw [Finset.sum_congr rfl (fun i hi => Finset.sum_congr rfl (fun j hj => hval i hi j hj))]
  rw [Finset.sum_congr rfl (fun i _ => Finset.sum_congr rfl (fun j _ =>
    ite_and_swap (i = 10) (j = 10) 161568))]
  rw [Finset.sum_congr rfl (fun i _ =>
    Finset.sum_ite_eq' (Finset.range (21 - 1)) 10 (fun _ => if i = 10 then (161568:ℝ) else 0))]
  rw [Finset.sum_congr rfl (fun i _ => if_pos (by norm_num : (10:ℕ) ∈ Finset.range (21 - 1)))]
  rw [Finset.sum_ite_eq' (Finset.range (28 - 8)) 10 (fun _ => (161568:ℝ)),
      if_pos (by norm_num : (10:ℕ) ∈ Finset.range (28 - 8))]
  norm_num

theorem sgn_sum36 : ∑ i ∈ Finset.range 36, sgn i = 0 := by
  norm_num [Finset.sum_range_succ, sgn]

theorem sgn_sq (m : ℕ) : sgn m ^ 2 = 1 := by
  unfold sgn
  split_ifs <;> norm_num

theorem sgn_succ (m : ℕ) : sgn (m + 1) = -sgn m := by
  unfold sgn
  rcases Nat.even_or_odd m with he | ho
  · have h : m % 2 = 0 := Nat.even_iff.mp he
    have h1 : (m + 1) % 2 = 1 := by omega
    simp [h, h1]
  · have h : m % 2 = 1 := Nat.odd_iff.mp ho
    have h1 : (m + 1) % 2 = 0 := by omega
    simp [h, h1]

theorem mean_const (h w : ℕ) (c : ℝ) (hh : h ≠ 0) (hw : w ≠ 0) :
    GMat.mean ⟨h, w, fun _ _ => c⟩ = c := by
  unfold GMat.mean GMat.sum
  dsimp only
  rw [Finset.sum_congr rfl (fun i _ => Finset.sum_const c), Finset.sum_const]
  simp only [Finset.card_range, nsmul_eq_mul]
  have hh' : ((h:ℝ)) ≠ 0 := Nat.cast_ne_zero.mpr hh
  have hw' : ((w:ℝ)) ≠ 0 := Nat.cast_ne_zero.mpr hw
  field_simp
  ring

theorem chanMean (A : ℝ) : GMat.mean ⟨36, 22, fun i _ => A + 50 * sgn i⟩ = A := by
  unfold GMat.mean GMat.sum
  dsimp only
  rw [Finset.sum_congr rfl (fun i _ => Finset.sum_const (A + 50 * sgn i))]
  simp only [Finset.card_range, nsmul_eq_mul]
  rw [← Finset.mul_sum, Finset.sum_add_distrib, Finset.sum_const, Finset.card_range,
      ← Finset.mul_sum, sgn_sum36]
  simp only [nsmul_eq_mul]
  ring

theorem chanStd (A : ℝ) :
    Real.sqrt (GMat.var ⟨36, 22, fun i _ => A + 50 * sgn i⟩) = 50 := by
  have hvar : GMat.var ⟨36, 22, fun i _ => A + 50 * sgn i⟩ = 2500 := by
    unfold GMat.var
    dsimp only
    rw [chanMean A]
    have hfun : (fun i _ : ℕ => (A + 50 * sgn i - A) ^ 2) = (fun _ _ : ℕ => (2500:ℝ)) := by
      funext i j
      calc (A + 50 * sgn i - A) ^ 2 = 2500 * sgn i ^ 2 := by ring
      _ = 2500 := by rw [sgn_sq i]; norm_num
    rw [hfun]
    exact mean_const 36 22 2500 (by norm_num) (by norm_num)
  rw [hvar, show (2500:ℝ) = 50 ^ 2 by norm_num, Real.sqrt_sq (by norm_num : (0:ℝ) ≤ 50)]

theorem textureRowC5 :
    GMat.mean ⟨36 - 1, 22, fun i j => |GC5.v (i + 1) j - GC5.v i j|⟩ = 100 := by
  have hfun : (fun i j : ℕ => |GC5.v (i + 1) j - GC5.v i j|) = (fun _ _ : ℕ => (100:ℝ)) := by
    funext i j
    rw [show GC5.v (i + 1) j = 204 + 50 * sgn (i + 1) from rfl,
        show GC5.v i j = 204 + 50 * sgn i from rfl, sgn_succ i]
    rw [show 204 + 50 * -sgn i - (204 + 50 * sgn i) = (-100) * sgn i by ring, abs_mul]
    rw [show |(-100:ℝ)| = 100 by norm_num]
    have : |sgn i| = 1 := by
      unfold sgn
      split_ifs <;> norm_num
    rw [this]
    norm_num
  rw [hfun]
  exact mean_const (36 - 1) 22 100 (by norm_num) (by norm_num)

theorem textureColC5 :
    GMat.mean ⟨36, 22 - 1, fun i j => |GC5.v i (j + 1) - GC5.v i j|⟩ = 0 := by
  have hfun : (fun i j : ℕ => |GC5.v i (j + 1) - GC5.v i j|) = (fun _ _ : ℕ => (0:ℝ)) := by
    funext i j
    rw [show GC5.v i (j + 1) = 204 + 50 * sgn i from rfl,
        show GC5.v i j = 204 + 50 * sgn i from rfl]
    norm_num
  rw [hfun]
  exact mean_const 36 (22 - 1) 0 (by norm_num) (by norm_num)

theorem rhe_eval_up (y : ℝ) (n : ℤ) (h1 : (n:ℝ) ≤ y) (h2 : y < (n:ℝ) + 1)
    (h3 : 1/2 < y - (n:ℝ)) : rhe y = n + 1 := by
  have hf : ⌊y⌋ = n := by
    rw [Int.floor_eq_iff]
    · exact ⟨h1, by linarith⟩
  unfold rhe
  rw [hf, if_neg (by linarith), if_pos h3]

theorem rhe_tie_even (y : ℝ) (n : ℤ) (h1 : (n:ℝ) ≤ y) (h2 : y < (n:ℝ) + 1)
    (h3 : y - (n:ℝ) = 1/2) (h4 : Even n) : rhe y = n := by
  have hf : ⌊y⌋ = n := by
    rw [Int.floor_eq_iff]
    · exact ⟨h1, by linarith⟩
  unfold rhe
  rw [hf, if_neg (by linarith), if_neg (by linarith), if_pos h4]

theorem pyRound3_one : pyRound 3 (1:ℝ) = 1 :=
  pyRound_eq_self 3 1 1000 (by norm_num)

theorem screen_round : pyRound 3 ((478880001:ℝ)/403920001) = 1.186 := by
  unfold pyRound
  rw [show ((478880001:ℝ)/403920001) * 10 ^ 3 = 478880001000/403920001 by ring]
  rw [rhe_eval_up (478880001000/403920001) 1185 (by norm_num) (by norm_num) (by norm_num)]
  norm_num

theorem tie_round : pyRound 3 ((1.0465):ℝ) = 1.046 := by
  unfold pyRound
  rw [show ((1.0465:ℝ)) * 10 ^ 3 = 1046.5 by norm_num]
  rw [rhe_tie_even 1046.5 1046 (by norm_num) (by norm_num) (by norm_num)
    (⟨523, by norm_num⟩ : Even (1046:ℤ))]
  norm_num

theorem proportionC5 : face_proportion_score 22 36 = 1 := by
  unfold face_proportion_score
  dsimp only
  rw [if_pos]
  · norm_num
  constructor <;> · push_cast; norm_num

theorem checkC5 : check_liveness faceC5 imgC5 =
    ⟨true, some 1.046, some ⟨1.186, 1, 1, 1, some 1⟩⟩ := by
  have ht1 : GMat.meanN ⟨36 - 1, 22, fun i j => |GC5.v (i + 1) j - GC5.v i j|⟩
      = some 100 := by
    unfold GMat.meanN
    rw [if_neg (by omega : ¬((36:ℕ) - 1 = 0 ∨ (22:ℕ) = 0)), textureRowC5]
  have ht2 : GMat.meanN ⟨36, 22 - 1, fun i j => |GC5.v i (j + 1) - GC5.v i j|⟩
      = some 0 := by
    unfold GMat.meanN
    rw [if_neg (by omega : ¬((36:ℕ) = 0 ∨ (22:ℕ) - 1 = 0)), textureColC5]
  have hnd : (liveness_region faceC5 imgC5).h * (liveness_region faceC5 imgC5).w ≠ 0 := by
    rw [regionC5]; norm_num [imgC5]
  have hr : GMat.mean ⟨imgC5.h, imgC5.w, fun i j => (imgC5.px i j).r⟩ = 205 := by
    rw [show (⟨imgC5.h, imgC5.w, fun i j => (imgC5.px i j).r⟩ : GMat) =
      ⟨36, 22, fun i _ => 205 + 50 * sgn i⟩ from rfl]
    exact chanMean 205
  have hg : GMat.mean ⟨imgC5.h, imgC5.w, fun i j => (imgC5.px i j).g⟩ = 204 := by
    rw [show (⟨imgC5.h, imgC5.w, fun i j => (imgC5.px i j).g⟩ : GMat) =
      ⟨36, 22, fun i _ => 204 + 50 * sgn i⟩ from rfl]
    exact chanMean 204
  have hb : GMat.mean ⟨imgC5.h, imgC5.w, fun i j => (imgC5.px i j).b⟩ = 203 := by
    rw [show (⟨imgC5.h, imgC5.w, fun i j => (imgC5.px i j).b⟩ : GMat) =
      ⟨36, 22, fun i _ => 203 + 50 * sgn i⟩ from rfl]
    exact chanMean 203
  have hsr : Real.sqrt (GMat.var ⟨imgC5.h, imgC5.w, fun i j => (imgC5.px i j).r⟩) = 50 := by
    rw [show (⟨imgC5.h, imgC5.w, fun i j => (imgC5.px i j).r⟩ : GMat) =
      ⟨36, 22, fun i _ => 205 + 50 * sgn i⟩ from rfl]
    exact chanStd 205
  have hsg : Real.sqrt (GMat.var ⟨imgC5.h, imgC5.w, fun i j => (imgC5.px i j).g⟩) = 50 := by
    rw [show (⟨imgC5.h, imgC5.w, fun i j => (imgC5.px i j).g⟩ : GMat) =
      ⟨36, 22, fun i _ => 204 + 50 * sgn i⟩ from rfl]
    exact chanStd 204
  have hsb : Real.sqrt (GMat.var ⟨imgC5.h, imgC5.w, fun i j => (imgC5.px i j).b⟩) = 50 := by
    rw [show (⟨imgC5.h, imgC5.w, fun i j => (imgC5.px i j).b⟩ : GMat) =
      ⟨36, 22, fun i _ => 203 + 50 * sgn i⟩ from rfl]
    exact chanStd 203
  unfold check_liveness
  rw [if_neg hnd]
  dsimp only
  rw [regionC5, grayC5]
  rw [show (((magnitudeShift GC5).h : ℤ)) = 36 from rfl,
      show (((magnitudeShift GC5).w : ℤ)) = 22 from rfl]
  rw [show ((36:ℤ)/2 - 10) = 8 by decide, show ((36:ℤ)/2 + 10) = 28 by decide,
      show ((22:ℤ)/2 - 10) = 1 by decide, show ((22:ℤ)/2 + 10) = 21 by decide]
  rw [MwindowC5, MmeanC5]
  rw [show (1.0 - min ((254 - 40392/100) / (40392/100 + 1e-6) / 2) 1.0 : ℝ)
      = 478880001/403920001 by rw [min_eq_left (by norm_num)]; norm_num]
  rw [screen_round]
  rw [hr, hg, hb, hsr, hsg, hsb]
  rw [if_pos (⟨by norm_num, by norm_num⟩ : (204:ℝ) < 205 ∧ (203:ℝ) < 204)]
  rw [show ((50:ℝ) + 50 + 50) / 150 = 1.0 by norm_num, min_self]
  rw [show ((1.0:ℝ) * 0.5 + 1.0 * 0.5) = 1 by norm_num]
  rw [show truncInt faceC5.bx1 = 0 from truncInt_zero,
      show truncInt faceC5.by1 = 0 from truncInt_zero,
      show truncInt faceC5.bx2 = 22 from by
        rw [show faceC5.bx2 = (22:ℝ) from rfl,
            show (22:ℝ) = ((22:ℕ):ℝ) by norm_num, truncInt_natCast]; rfl,
      show truncInt faceC5.by2 = 36 from by
        rw [show faceC5.by2 = (36:ℝ) from rfl,
            show (36:ℝ) = ((36:ℕ):ℝ) by norm_num, truncInt_natCast]; rfl]
  rw [show (22:ℤ) - 0 = 22 from rfl, show (36:ℤ) - 0 = 36 from rfl]
  rw [proportionC5]
  rw [show faceC5.det_score = 1 from rfl]
  rw [show imgC5.h = 36 from rfl, show imgC5.w = 22 from rfl]
  rw [ht1, ht2]
  rw [show Option.map (pyRound 3) (Option.map (fun g => min (g / 25) 1.0)
        (addN (some (100:ℝ)) (some 0))) = some 1 from by
    show some (pyRound 3 (min (((100:ℝ) + 0) / 25) 1.0)) = some 1
    rw [show min (((100:ℝ) + 0) / 25) 1.0 = 1 by norm_num, pyRound3_one]]
  rw [pyRound3_one]
  have hcomb : liveness_combined ⟨1.186, 1, 1, 1, some 1⟩ = some 1.0465 := by
    unfold liveness_combined
    dsimp only [Option.map_some']
    norm_num
  rw [hcomb]
  rw [show gtN (some (1.0465:ℝ)) 0.55 = true from by
    show decide ((0.55:ℝ) < 1.0465) = true
    exact decide_eq_true (by norm_num)]
  rw [Option.map_some', tie_round]

/-- C5 counterexample: spec says the combined liveness confidence is a
weighted sum of the five sub-scores lying in [0, 1]; on this concrete
36×22 crop (rows alternating bright/dark) the screen-pattern sub-score
is 1.186 and the reported combined confidence is 1.046 > 1. -/
theorem C5_counterexample :
    (check_liveness faceC5 imgC5).confidence = some 1.046 ∧
    (∃ v, (check_liveness faceC5 imgC5).confidence = some v ∧ 1 < v) ∧
    (check_liveness faceC5 imgC5).checks = some ⟨1.186, 1, 1, 1, some 1⟩ := by
  rw [checkC5]
  exact ⟨rfl, ⟨1.046, rfl, by norm_num⟩, rfl⟩

end GoAttend

